import Mathlib

set_option maxHeartbeats 1000000

/-
Verification of the nimblephysics GUI state machine and MeshShape.

Sources:
 - src/python/_nimblephysics/server/GUIStateMachine.cpp declares the pybind11
   bindings of dart::server::GUIStateMachine; the implementation itself is not
   part of the source tree, so the registry below is modelled from the spec
   (sections 3, 4.1-4.3 and 7).
 - src/unnamed/part_000 is dart/dynamics/MeshShape.cpp; its functions are
   embedded directly from that source.
-/

/-- A 3-component vector over a scalar type. -/
structure V3 (α : Type) where
  x : α
  y : α
  z : α
deriving DecidableEq

/-- A 2-component vector (screen layout positions and sizes). -/
structure V2 (α : Type) where
  x : α
  y : α
deriving DecidableEq

/-- Modelled from the spec: the per-kind geometric parameters of a scene
object ("size, radius, or point list"; meshes reference an opaque shape
handle).  The GUIStateMachine implementation is missing from src. -/
inductive GeomParams where
  | box (size : V3 ℚ)
  | sphere (radius : ℚ)
  | line (points : List (V3 ℚ))
  | mesh (shapeHandle : Nat)
deriving DecidableEq

/-- Modelled from the spec: a SceneObject of the Object Registry (spec
section 3): shape kind with geometric parameters, position, Euler
orientation, scale (meshes only; ones otherwise), RGB color and the two
shadow flags.  The GUIStateMachine implementation is missing from src. -/
structure SceneObject where
  params : GeomParams
  pos : V3 ℚ
  euler : V3 ℚ
  scale : V3 ℚ
  color : V3 ℚ
  castShadows : Bool
  receiveShadows : Bool
deriving DecidableEq

/-- Modelled from the spec: the four UI widget kinds sharing one key
namespace. -/
inductive WidgetKind where
  | text
  | button
  | slider
  | plot
deriving DecidableEq

/-- Modelled from the spec: a UIWidget of the UI Widget Registry (spec
section 3).  Callbacks are identifiers resolved by the hosting application,
modelled as naturals.  The GUIStateMachine implementation is missing from
src. -/
structure UIWidget where
  kind : WidgetKind
  fromTopLeft : V2 ℚ
  size : V2 ℚ
  contents : String
  label : String
  onClick : Nat
  sliderMin : ℚ
  sliderMax : ℚ
  sliderValue : ℚ
  onlyInts : Bool
  horizontal : Bool
  onChange : Nat
  plotXs : List ℚ
  plotMinX : ℚ
  plotMaxX : ℚ
  plotYs : List ℚ
  plotMinY : ℚ
  plotMaxY : ℚ
  plotType : String
deriving DecidableEq

/-- Modelled from the spec: the "fields: mapping of field-name to new value"
of a diff event; a `none` entry means the field is absent from the
mapping. -/
structure Fields where
  params : Option GeomParams
  pos : Option (V3 ℚ)
  euler : Option (V3 ℚ)
  scale : Option (V3 ℚ)
  color : Option (V3 ℚ)
  castShadows : Option Bool
  receiveShadows : Option Bool
  wkind : Option WidgetKind
  fromTopLeft : Option (V2 ℚ)
  wsize : Option (V2 ℚ)
  contents : Option String
  label : Option String
  onClick : Option Nat
  sliderMin : Option ℚ
  sliderMax : Option ℚ
  sliderValue : Option ℚ
  onlyInts : Option Bool
  horizontal : Option Bool
  onChange : Option Nat
  plotXs : Option (List ℚ)
  plotMinX : Option ℚ
  plotMaxX : Option ℚ
  plotYs : Option (List ℚ)
  plotMinY : Option ℚ
  plotMaxY : Option ℚ
  plotType : Option String
deriving DecidableEq

/-- The empty field mapping: no field present. -/
def Fields.empty : Fields :=
  ⟨none, none, none, none, none, none, none, none, none, none, none, none, none,
   none, none, none, none, none, none, none, none, none, none, none, none, none⟩

/-- Modelled from the spec: the operation tag of a diff event
(create, update or delete). -/
inductive DiffOp where
  | create
  | update
  | delete
deriving DecidableEq

/-- Modelled from the spec: the target kind of a diff event (object or
widget). -/
inductive TargetKind where
  | object
  | widget
deriving DecidableEq

/-- Modelled from the spec: a diff event is the tagged record
`(operation, targetKind, key, fields)`; `clear()` records a full-reset diff
(snapshot invalidation), modelled by the dedicated `reset` event. -/
inductive DiffEvent where
  | mut (operation : DiffOp) (targetKind : TargetKind) (key : String) (fields : Fields)
  | reset
deriving DecidableEq

/-- Association-list lookup by string key (first match). -/
def alookup {α : Type} : List (String × α) → String → Option α
  | [], _ => none
  | (k2, v) :: rest, k => if k2 = k then some v else alookup rest k

/-- Association-list insert-or-replace by key: replaces the entry in place
if the key is present, otherwise appends a fresh entry. -/
def upsert {α : Type} : List (String × α) → String → α → List (String × α)
  | [], k, v => [(k, v)]
  | (k2, v2) :: rest, k, v =>
      if k2 = k then (k, v) :: rest else (k2, v2) :: upsert rest k v

/-- Association-list removal of every entry with the given key. -/
def removeKey {α : Type} : List (String × α) → String → List (String × α)
  | [], _ => []
  | (k2, v2) :: rest, k =>
      if k2 = k then removeKey rest k else (k2, v2) :: removeKey rest k

/-- Modelled from the spec: the error taxonomy entry for a mutate/read on an
absent key (spec section 7). -/
inductive GuiError where
  | NotFoundError
deriving DecidableEq

/-- Modelled from the spec: the GUIStateMachine state — the Object Registry,
the UI Widget Registry, and the pending-send diff buffer.  The actual C++
implementation is missing from src (only its pybind11 binding is there). -/
structure GUIStateMachine where
  objects : List (String × SceneObject)
  widgets : List (String × UIWidget)
  events : List DiffEvent
deriving DecidableEq

/-- The initial, empty GUIStateMachine. -/
def GUIStateMachine.empty : GUIStateMachine := ⟨[], [], []⟩

/-- The field mapping of an object creation event: all object fields are
included. -/
def objCreateFields (o : SceneObject) : Fields :=
  { Fields.empty with
    params := some o.params
    pos := some o.pos
    euler := some o.euler
    scale := some o.scale
    color := some o.color
    castShadows := some o.castShadows
    receiveShadows := some o.receiveShadows }

/-- The field mapping of a widget creation event: all widget fields are
included. -/
def widgetCreateFields (w : UIWidget) : Fields :=
  { Fields.empty with
    wkind := some w.kind
    fromTopLeft := some w.fromTopLeft
    wsize := some w.size
    contents := some w.contents
    label := some w.label
    onClick := some w.onClick
    sliderMin := some w.sliderMin
    sliderMax := some w.sliderMax
    sliderValue := some w.sliderValue
    onlyInts := some w.onlyInts
    horizontal := some w.horizontal
    onChange := some w.onChange
    plotXs := some w.plotXs
    plotMinX := some w.plotMinX
    plotMaxX := some w.plotMaxX
    plotYs := some w.plotYs
    plotMinY := some w.plotMinY
    plotMaxY := some w.plotMaxY
    plotType := some w.plotType }

/-- Modelled from the spec: `createBox(key, size, pos, euler, color,
castShadows, receiveShadows)` — insert-or-replace by key; records a creation
diff carrying all fields (spec 4.1, 4.3).  Implementation missing from src;
argument list follows the pybind11 binding. -/
def GUIStateMachine.createBox (st : GUIStateMachine) (key : String)
    (size pos euler color : V3 ℚ) (castShadows receiveShadows : Bool) :
    GUIStateMachine :=
  let obj : SceneObject :=
    ⟨GeomParams.box size, pos, euler, ⟨1, 1, 1⟩, color, castShadows, receiveShadows⟩
  ⟨upsert st.objects key obj, st.widgets,
    st.events ++ [DiffEvent.mut DiffOp.create TargetKind.object key (objCreateFields obj)]⟩

/-- Modelled from the spec: `createSphere(key, radius, pos, color,
castShadows, receiveShadows)` — insert-or-replace by key; records a creation
diff carrying all fields. -/
def GUIStateMachine.createSphere (st : GUIStateMachine) (key : String)
    (radius : ℚ) (pos color : V3 ℚ) (castShadows receiveShadows : Bool) :
    GUIStateMachine :=
  let obj : SceneObject :=
    ⟨GeomParams.sphere radius, pos, ⟨0, 0, 0⟩, ⟨1, 1, 1⟩, color, castShadows,
      receiveShadows⟩
  ⟨upsert st.objects key obj, st.widgets,
    st.events ++ [DiffEvent.mut DiffOp.create TargetKind.object key (objCreateFields obj)]⟩

/-- Modelled from the spec: `createLine(key, points, color)` —
insert-or-replace by key; records a creation diff carrying all fields.  The
binding supplies no position, orientation or shadow arguments, so those take
the registry defaults. -/
def GUIStateMachine.createLine (st : GUIStateMachine) (key : String)
    (points : List (V3 ℚ)) (color : V3 ℚ) : GUIStateMachine :=
  let obj : SceneObject :=
    ⟨GeomParams.line points, ⟨0, 0, 0⟩, ⟨0, 0, 0⟩, ⟨1, 1, 1⟩, color, true, false⟩
  ⟨upsert st.objects key obj, st.widgets,
    st.events ++ [DiffEvent.mut DiffOp.create TargetKind.object key (objCreateFields obj)]⟩

/-- Modelled from the spec: `createMeshFromShape(key, mesh, pos, euler,
scale, color, castShadows, receiveShadows)` — insert-or-replace by key; the
mesh shape is an opaque handle; records a creation diff carrying all
fields. -/
def GUIStateMachine.createMeshFromShape (st : GUIStateMachine) (key : String)
    (mesh : Nat) (pos euler scale color : V3 ℚ)
    (castShadows receiveShadows : Bool) : GUIStateMachine :=
  let obj : SceneObject :=
    ⟨GeomParams.mesh mesh, pos, euler, scale, color, castShadows, receiveShadows⟩
  ⟨upsert st.objects key obj, st.widgets,
    st.events ++ [DiffEvent.mut DiffOp.create TargetKind.object key (objCreateFields obj)]⟩

/-- Modelled from the spec: `getObjectPosition(key)` — pure read, fails with
NotFoundError if the key is absent. -/
def GUIStateMachine.getObjectPosition (st : GUIStateMachine) (key : String) :
    Except GuiError (V3 ℚ) :=
  match alookup st.objects key with
  | none => Except.error GuiError.NotFoundError
  | some o => Except.ok o.pos

/-- Modelled from the spec: `getObjectRotation(key)` — pure read of the Euler
orientation, fails with NotFoundError if the key is absent. -/
def GUIStateMachine.getObjectRotation (st : GUIStateMachine) (key : String) :
    Except GuiError (V3 ℚ) :=
  match alookup st.objects key with
  | none => Except.error GuiError.NotFoundError
  | some o => Except.ok o.euler

/-- Modelled from the spec: `getObjectColor(key)` — pure read, fails with
NotFoundError if the key is absent. -/
def GUIStateMachine.getObjectColor (st : GUIStateMachine) (key : String) :
    Except GuiError (V3 ℚ) :=
  match alookup st.objects key with
  | none => Except.error GuiError.NotFoundError
  | some o => Except.ok o.color

/-- Modelled from the spec: `setObjectPosition(key, position)` — fails with
NotFoundError if the key is absent; otherwise mutates in place and records an
update diff limited to the position field. -/
def GUIStateMachine.setObjectPosition (st : GUIStateMachine) (key : String)
    (position : V3 ℚ) : Except GuiError GUIStateMachine :=
  match alookup st.objects key with
  | none => Except.error GuiError.NotFoundError
  | some o => Except.ok
      ⟨upsert st.objects key { o with pos := position }, st.widgets,
        st.events ++ [DiffEvent.mut DiffOp.update TargetKind.object key
          { Fields.empty with pos := some position }]⟩

/-- Modelled from the spec: `setObjectRotation(key, euler)` — fails with
NotFoundError if the key is absent; otherwise mutates in place and records an
update diff limited to the orientation field. -/
def GUIStateMachine.setObjectRotation (st : GUIStateMachine) (key : String)
    (euler : V3 ℚ) : Except GuiError GUIStateMachine :=
  match alookup st.objects key with
  | none => Except.error GuiError.NotFoundError
  | some o => Except.ok
      ⟨upsert st.objects key { o with euler := euler }, st.widgets,
        st.events ++ [DiffEvent.mut DiffOp.update TargetKind.object key
          { Fields.empty with euler := some euler }]⟩

/-- Modelled from the spec: `setObjectColor(key, color)` — fails with
NotFoundError if the key is absent; otherwise mutates in place and records an
update diff limited to the color field. -/
def GUIStateMachine.setObjectColor (st : GUIStateMachine) (key : String)
    (color : V3 ℚ) : Except GuiError GUIStateMachine :=
  match alookup st.objects key with
  | none => Except.error GuiError.NotFoundError
  | some o => Except.ok
      ⟨upsert st.objects key { o with color := color }, st.widgets,
        st.events ++ [DiffEvent.mut DiffOp.update TargetKind.object key
          { Fields.empty with color := some color }]⟩

/-- Modelled from the spec: `deleteObject(key)` — removes the entry and
records a delete diff; a no-op with a soft warning (the returned Bool) if the
key is absent (spec 4.1 and 7). -/
def GUIStateMachine.deleteObject (st : GUIStateMachine) (key : String) :
    GUIStateMachine × Bool :=
  match alookup st.objects key with
  | none => (st, true)
  | some _ =>
      (⟨removeKey st.objects key, st.widgets,
        st.events ++ [DiffEvent.mut DiffOp.delete TargetKind.object key Fields.empty]⟩,
       false)

/-- Modelled from the spec: `clear()` — removes all objects and widgets and
records a full-reset diff (snapshot invalidation). -/
def GUIStateMachine.clear (st : GUIStateMachine) : GUIStateMachine :=
  ⟨[], [], st.events ++ [DiffEvent.reset]⟩

/-- Modelled from the spec: `createText(key, contents, fromTopLeft, size)` —
insert-or-replace by key; records a creation diff carrying all fields.
Fields not supplied by this widget kind take the registry defaults. -/
def GUIStateMachine.createText (st : GUIStateMachine) (key : String)
    (contents : String) (fromTopLeft size : V2 ℚ) : GUIStateMachine :=
  let w : UIWidget :=
    ⟨WidgetKind.text, fromTopLeft, size, contents, "", 0, 0, 1, 0, false, true, 0,
      [], 0, 1, [], 0, 1, "line"⟩
  ⟨st.objects, upsert st.widgets key w,
    st.events ++ [DiffEvent.mut DiffOp.create TargetKind.widget key (widgetCreateFields w)]⟩

/-- Modelled from the spec: `createButton(key, label, fromTopLeft, size,
onClick)` — insert-or-replace by key; the click callback is an identifier
resolved by the hosting application. -/
def GUIStateMachine.createButton (st : GUIStateMachine) (key : String)
    (label : String) (fromTopLeft size : V2 ℚ) (onClick : Nat) :
    GUIStateMachine :=
  let w : UIWidget :=
    ⟨WidgetKind.button, fromTopLeft, size, "", label, onClick, 0, 1, 0, false, true,
      0, [], 0, 1, [], 0, 1, "line"⟩
  ⟨st.objects, upsert st.widgets key w,
    st.events ++ [DiffEvent.mut DiffOp.create TargetKind.widget key (widgetCreateFields w)]⟩

/-- Modelled from the spec: `createSlider(key, fromTopLeft, size, min, max,
value, onlyInts, horizontal, onChange)` — insert-or-replace by key. -/
def GUIStateMachine.createSlider (st : GUIStateMachine) (key : String)
    (fromTopLeft size : V2 ℚ) (min max value : ℚ)
    (onlyInts horizontal : Bool) (onChange : Nat) : GUIStateMachine :=
  let w : UIWidget :=
    ⟨WidgetKind.slider, fromTopLeft, size, "", "", 0, min, max, value, onlyInts,
      horizontal, onChange, [], 0, 1, [], 0, 1, "line"⟩
  ⟨st.objects, upsert st.widgets key w,
    st.events ++ [DiffEvent.mut DiffOp.create TargetKind.widget key (widgetCreateFields w)]⟩

/-- Modelled from the spec: `createPlot(key, fromTopLeft, size, xs, minX,
maxX, ys, minY, maxY, plotType)` — insert-or-replace by key. -/
def GUIStateMachine.createPlot (st : GUIStateMachine) (key : String)
    (fromTopLeft size : V2 ℚ) (xs : List ℚ) (minX maxX : ℚ)
    (ys : List ℚ) (minY maxY : ℚ) (plotType : String) : GUIStateMachine :=
  let w : UIWidget :=
    ⟨WidgetKind.plot, fromTopLeft, size, "", "", 0, 0, 1, 0, false, true, 0,
      xs, minX, maxX, ys, minY, maxY, plotType⟩
  ⟨st.objects, upsert st.widgets key w,
    st.events ++ [DiffEvent.mut DiffOp.create TargetKind.widget key (widgetCreateFields w)]⟩

/-- Modelled from the spec: `setUIElementPosition(key, position)` — fails
with NotFoundError on a missing key, else mutates the layout position and
emits an update diff scoped to that field. -/
def GUIStateMachine.setUIElementPosition (st : GUIStateMachine) (key : String)
    (position : V2 ℚ) : Except GuiError GUIStateMachine :=
  match alookup st.widgets key with
  | none => Except.error GuiError.NotFoundError
  | some w => Except.ok
      ⟨st.objects, upsert st.widgets key { w with fromTopLeft := position },
        st.events ++ [DiffEvent.mut DiffOp.update TargetKind.widget key
          { Fields.empty with fromTopLeft := some position }]⟩

/-- Modelled from the spec: `setUIElementSize(key, size)` — fails with
NotFoundError on a missing key, else mutates the layout size and emits an
update diff scoped to that field. -/
def GUIStateMachine.setUIElementSize (st : GUIStateMachine) (key : String)
    (size : V2 ℚ) : Except GuiError GUIStateMachine :=
  match alookup st.widgets key with
  | none => Except.error GuiError.NotFoundError
  | some w => Except.ok
      ⟨st.objects, upsert st.widgets key { w with size := size },
        st.events ++ [DiffEvent.mut DiffOp.update TargetKind.widget key
          { Fields.empty with wsize := some size }]⟩

/-- Modelled from the spec: `setTextContents(key, contents)` — fails with
NotFoundError on a missing key, else emits an update diff scoped to the
contents field. -/
def GUIStateMachine.setTextContents (st : GUIStateMachine) (key : String)
    (contents : String) : Except GuiError GUIStateMachine :=
  match alookup st.widgets key with
  | none => Except.error GuiError.NotFoundError
  | some w => Except.ok
      ⟨st.objects, upsert st.widgets key { w with contents := contents },
        st.events ++ [DiffEvent.mut DiffOp.update TargetKind.widget key
          { Fields.empty with contents := some contents }]⟩

/-- Modelled from the spec: `setButtonLabel(key, label)` — fails with
NotFoundError on a missing key, else emits an update diff scoped to the
label field. -/
def GUIStateMachine.setButtonLabel (st : GUIStateMachine) (key : String)
    (label : String) : Except GuiError GUIStateMachine :=
  match alookup st.widgets key with
  | none => Except.error GuiError.NotFoundError
  | some w => Except.ok
      ⟨st.objects, upsert st.widgets key { w with label := label },
        st.events ++ [DiffEvent.mut DiffOp.update TargetKind.widget key
          { Fields.empty with label := some label }]⟩

/-- Modelled from the spec: `setSliderValue(key, value)` — fails with
NotFoundError on a missing key, else emits an update diff scoped to the
slider value field. -/
def GUIStateMachine.setSliderValue (st : GUIStateMachine) (key : String)
    (value : ℚ) : Except GuiError GUIStateMachine :=
  match alookup st.widgets key with
  | none => Except.error GuiError.NotFoundError
  | some w => Except.ok
      ⟨st.objects, upsert st.widgets key { w with sliderValue := value },
        st.events ++ [DiffEvent.mut DiffOp.update TargetKind.widget key
          { Fields.empty with sliderValue := some value }]⟩

/-- Modelled from the spec: `setSliderMin(key, value)` — fails with
NotFoundError on a missing key, else emits an update diff scoped to the
slider minimum field. -/
def GUIStateMachine.setSliderMin (st : GUIStateMachine) (key : String)
    (value : ℚ) : Except GuiError GUIStateMachine :=
  match alookup st.widgets key with
  | none => Except.error GuiError.NotFoundError
  | some w => Except.ok
      ⟨st.objects, upsert st.widgets key { w with sliderMin := value },
        st.events ++ [DiffEvent.mut DiffOp.update TargetKind.widget key
          { Fields.empty with sliderMin := some value }]⟩

/-- Modelled from the spec: `setSliderMax(key, value)` — fails with
NotFoundError on a missing key, else emits an update diff scoped to the
slider maximum field. -/
def GUIStateMachine.setSliderMax (st : GUIStateMachine) (key : String)
    (value : ℚ) : Except GuiError GUIStateMachine :=
  match alookup st.widgets key with
  | none => Except.error GuiError.NotFoundError
  | some w => Except.ok
      ⟨st.objects, upsert st.widgets key { w with sliderMax := value },
        st.events ++ [DiffEvent.mut DiffOp.update TargetKind.widget key
          { Fields.empty with sliderMax := some value }]⟩

/-- Modelled from the spec: `setPlotData(key, xs, minX, maxX, ys, minY,
maxY)` — fails with NotFoundError on a missing key, else mutates the plot
data fields and emits an update diff scoped to exactly those six fields. -/
def GUIStateMachine.setPlotData (st : GUIStateMachine) (key : String)
    (xs : List ℚ) (minX maxX : ℚ) (ys : List ℚ) (minY maxY : ℚ) :
    Except GuiError GUIStateMachine :=
  match alookup st.widgets key with
  | none => Except.error GuiError.NotFoundError
  | some w => Except.ok
      ⟨st.objects,
        upsert st.widgets key
          { w with plotXs := xs, plotMinX := minX, plotMaxX := maxX,
                   plotYs := ys, plotMinY := minY, plotMaxY := maxY },
        st.events ++ [DiffEvent.mut DiffOp.update TargetKind.widget key
          { Fields.empty with plotXs := some xs, plotMinX := some minX,
                              plotMaxX := some maxX, plotYs := some ys,
                              plotMinY := some minY, plotMaxY := some maxY }]⟩

/-- Modelled from the spec: `deleteUIElement(key)` — removes the entry and
records a delete diff; a no-op with a soft warning (the returned Bool) if
the key is absent. -/
def GUIStateMachine.deleteUIElement (st : GUIStateMachine) (key : String) :
    GUIStateMachine × Bool :=
  match alookup st.widgets key with
  | none => (st, true)
  | some _ =>
      (⟨st.objects, removeKey st.widgets key,
        st.events ++ [DiffEvent.mut DiffOp.delete TargetKind.widget key Fields.empty]⟩,
       false)

/-- Modelled from the spec: one mutating call of the GUIStateMachine API,
used to quantify over finite call sequences. -/
inductive MutOp where
  | createBox (key : String) (size pos euler color : V3 ℚ)
      (castShadows receiveShadows : Bool)
  | createSphere (key : String) (radius : ℚ) (pos color : V3 ℚ)
      (castShadows receiveShadows : Bool)
  | createLine (key : String) (points : List (V3 ℚ)) (color : V3 ℚ)
  | createMeshFromShape (key : String) (mesh : Nat) (pos euler scale color : V3 ℚ)
      (castShadows receiveShadows : Bool)
  | setObjectPosition (key : String) (position : V3 ℚ)
  | setObjectRotation (key : String) (euler : V3 ℚ)
  | setObjectColor (key : String) (color : V3 ℚ)
  | deleteObject (key : String)
  | createText (key : String) (contents : String) (fromTopLeft size : V2 ℚ)
  | createButton (key : String) (label : String) (fromTopLeft size : V2 ℚ)
      (onClick : Nat)
  | createSlider (key : String) (fromTopLeft size : V2 ℚ) (min max value : ℚ)
      (onlyInts horizontal : Bool) (onChange : Nat)
  | createPlot (key : String) (fromTopLeft size : V2 ℚ) (xs : List ℚ)
      (minX maxX : ℚ) (ys : List ℚ) (minY maxY : ℚ) (plotType : String)
  | setUIElementPosition (key : String) (position : V2 ℚ)
  | setUIElementSize (key : String) (size : V2 ℚ)
  | setTextContents (key : String) (contents : String)
  | setButtonLabel (key : String) (label : String)
  | setSliderValue (key : String) (value : ℚ)
  | setSliderMin (key : String) (value : ℚ)
  | setSliderMax (key : String) (value : ℚ)
  | setPlotData (key : String) (xs : List ℚ) (minX maxX : ℚ) (ys : List ℚ)
      (minY maxY : ℚ)
  | deleteUIElement (key : String)
  | clear

/-- Run one mutating call against the registry.  A call that fails with
NotFoundError leaves the state unchanged; a soft-warning delete keeps the
state it returned. -/
def runOp (st : GUIStateMachine) : MutOp → GUIStateMachine
  | MutOp.createBox k size pos euler color cs rs =>
      st.createBox k size pos euler color cs rs
  | MutOp.createSphere k radius pos color cs rs =>
      st.createSphere k radius pos color cs rs
  | MutOp.createLine k points color => st.createLine k points color
  | MutOp.createMeshFromShape k mesh pos euler scale color cs rs =>
      st.createMeshFromShape k mesh pos euler scale color cs rs
  | MutOp.setObjectPosition k p =>
      match st.setObjectPosition k p with
      | Except.ok st2 => st2
      | Except.error _ => st
  | MutOp.setObjectRotation k e =>
      match st.setObjectRotation k e with
      | Except.ok st2 => st2
      | Except.error _ => st
  | MutOp.setObjectColor k c =>
      match st.setObjectColor k c with
      | Except.ok st2 => st2
      | Except.error _ => st
  | MutOp.deleteObject k => (st.deleteObject k).1
  | MutOp.createText k contents ftl size => st.createText k contents ftl size
  | MutOp.createButton k label ftl size onClick =>
      st.createButton k label ftl size onClick
  | MutOp.createSlider k ftl size mn mx v oi hz oc =>
      st.createSlider k ftl size mn mx v oi hz oc
  | MutOp.createPlot k ftl size xs mnx mxx ys mny mxy pt =>
      st.createPlot k ftl size xs mnx mxx ys mny mxy pt
  | MutOp.setUIElementPosition k p =>
      match st.setUIElementPosition k p with
      | Except.ok st2 => st2
      | Except.error _ => st
  | MutOp.setUIElementSize k s =>
      match st.setUIElementSize k s with
      | Except.ok st2 => st2
      | Except.error _ => st
  | MutOp.setTextContents k c =>
      match st.setTextContents k c with
      | Except.ok st2 => st2
      | Except.error _ => st
  | MutOp.setButtonLabel k l =>
      match st.setButtonLabel k l with
      | Except.ok st2 => st2
      | Except.error _ => st
  | MutOp.setSliderValue k v =>
      match st.setSliderValue k v with
      | Except.ok st2 => st2
      | Except.error _ => st
  | MutOp.setSliderMin k v =>
      match st.setSliderMin k v with
      | Except.ok st2 => st2
      | Except.error _ => st
  | MutOp.setSliderMax k v =>
      match st.setSliderMax k v with
      | Except.ok st2 => st2
      | Except.error _ => st
  | MutOp.setPlotData k xs mnx mxx ys mny mxy =>
      match st.setPlotData k xs mnx mxx ys mny mxy with
      | Except.ok st2 => st2
      | Except.error _ => st
  | MutOp.deleteUIElement k => (st.deleteUIElement k).1
  | MutOp.clear => st.clear

/-- Run a finite sequence of mutating calls from a given state. -/
def runOps (st : GUIStateMachine) (ops : List MutOp) : GUIStateMachine :=
  ops.foldl runOp st

/-- Patch a scene object with the object fields present in a diff field
mapping (absent fields keep their old value). -/
def SceneObject.applyFields (o : SceneObject) (f : Fields) : SceneObject :=
  ⟨f.params.getD o.params, f.pos.getD o.pos, f.euler.getD o.euler,
   f.scale.getD o.scale, f.color.getD o.color, f.castShadows.getD o.castShadows,
   f.receiveShadows.getD o.receiveShadows⟩

/-- Patch a widget with the widget fields present in a diff field mapping
(absent fields keep their old value). -/
def UIWidget.applyFields (w : UIWidget) (f : Fields) : UIWidget :=
  ⟨f.wkind.getD w.kind, f.fromTopLeft.getD w.fromTopLeft, f.wsize.getD w.size,
   f.contents.getD w.contents, f.label.getD w.label, f.onClick.getD w.onClick,
   f.sliderMin.getD w.sliderMin, f.sliderMax.getD w.sliderMax,
   f.sliderValue.getD w.sliderValue, f.onlyInts.getD w.onlyInts,
   f.horizontal.getD w.horizontal, f.onChange.getD w.onChange,
   f.plotXs.getD w.plotXs, f.plotMinX.getD w.plotMinX, f.plotMaxX.getD w.plotMaxX,
   f.plotYs.getD w.plotYs, f.plotMinY.getD w.plotMinY, f.plotMaxY.getD w.plotMaxY,
   f.plotType.getD w.plotType⟩

/-- The object a snapshot consumer materializes before applying a creation
event's field mapping (creation events carry every field, so these defaults
are always overwritten). -/
def defaultObject : SceneObject :=
  ⟨GeomParams.box ⟨1, 1, 1⟩, ⟨0, 0, 0⟩, ⟨0, 0, 0⟩, ⟨1, 1, 1⟩,
   ⟨1/2, 1/2, 1/2⟩, true, false⟩

/-- The widget a snapshot consumer materializes before applying a creation
event's field mapping. -/
def defaultWidget : UIWidget :=
  ⟨WidgetKind.text, ⟨0, 0⟩, ⟨0, 0⟩, "", "", 0, 0, 1, 0, false, true, 0,
   [], 0, 1, [], 0, 1, "line"⟩

/-- Modelled from the spec: the snapshot-consumer model — a viewer's mirror
of the two registries, built purely from the received diff stream. -/
structure Consumer where
  objects : List (String × SceneObject)
  widgets : List (String × UIWidget)
deriving DecidableEq

/-- The empty consumer state (a viewer that connected to an empty scene). -/
def Consumer.empty : Consumer := ⟨[], []⟩

/-- Modelled from the spec: apply one received diff event to a consumer's
mirrored state: a create materializes an entry from the event's (complete)
field mapping, an update patches the named entry with the (partial) field
mapping, a delete removes the entry, and a reset empties the mirror. -/
def Consumer.applyEvent (c : Consumer) : DiffEvent → Consumer
  | DiffEvent.mut DiffOp.create TargetKind.object k f =>
      ⟨upsert c.objects k (defaultObject.applyFields f), c.widgets⟩
  | DiffEvent.mut DiffOp.update TargetKind.object k f =>
      match alookup c.objects k with
      | some o => ⟨upsert c.objects k (o.applyFields f), c.widgets⟩
      | none => c
  | DiffEvent.mut DiffOp.delete TargetKind.object k _ =>
      ⟨removeKey c.objects k, c.widgets⟩
  | DiffEvent.mut DiffOp.create TargetKind.widget k f =>
      ⟨c.objects, upsert c.widgets k (defaultWidget.applyFields f)⟩
  | DiffEvent.mut DiffOp.update TargetKind.widget k f =>
      match alookup c.widgets k with
      | some w => ⟨c.objects, upsert c.widgets k (w.applyFields f)⟩
      | none => c
  | DiffEvent.mut DiffOp.delete TargetKind.widget k _ =>
      ⟨c.objects, removeKey c.widgets k⟩
  | DiffEvent.reset => ⟨[], []⟩

/-- Replay a received diff stream, in order, onto a consumer state. -/
def Consumer.replay (c : Consumer) (es : List DiffEvent) : Consumer :=
  es.foldl Consumer.applyEvent c

/-- The key-uniqueness invariant of a registry: each entry's key does not
occur again later in the list. -/
def KeysNodup {α : Type} : List (String × α) → Prop
  | [] => True
  | (k, _) :: rest => alookup rest k = none ∧ KeysNodup rest

/-- Modelled from the spec: the per-key object position a viewer's mirror
shows (same read contract as the registry getter). -/
def Consumer.getObjectPosition (c : Consumer) (key : String) :
    Except GuiError (V3 ℚ) :=
  match alookup c.objects key with
  | none => Except.error GuiError.NotFoundError
  | some o => Except.ok o.pos

/-- Modelled from the spec: the per-key object orientation a viewer's mirror
shows. -/
def Consumer.getObjectRotation (c : Consumer) (key : String) :
    Except GuiError (V3 ℚ) :=
  match alookup c.objects key with
  | none => Except.error GuiError.NotFoundError
  | some o => Except.ok o.euler

/-- Modelled from the spec: the per-key object color a viewer's mirror
shows. -/
def Consumer.getObjectColor (c : Consumer) (key : String) :
    Except GuiError (V3 ℚ) :=
  match alookup c.objects key with
  | none => Except.error GuiError.NotFoundError
  | some o => Except.ok o.color

/-- The MeshShape scalar type: the C++ scalar s_t is a floating-point type
whose value set includes the two infinities, which updateBoundingBox uses as
loop sentinels; finite values are modelled as rationals.  (IEEE NaN is not
modelled: the only products that would produce it — an infinity times zero —
are unreachable in the verified statements.) -/
inductive EFloat where
  | negInf : EFloat
  | fin : ℚ → EFloat
  | posInf : EFloat
deriving DecidableEq

/-- Strict less-than on the extended scalars, IEEE-style: -inf is below
every finite value and +inf, no value is strictly below itself. -/
def EFloat.blt : EFloat → EFloat → Bool
  | EFloat.negInf, EFloat.negInf => false
  | EFloat.negInf, _ => true
  | EFloat.fin _, EFloat.negInf => false
  | EFloat.fin a, EFloat.fin b => decide (a < b)
  | EFloat.fin _, EFloat.posInf => true
  | EFloat.posInf, _ => false

/-- Non-strict comparison, derived from the strict one as on a total
order. -/
def EFloat.ble (a b : EFloat) : Bool := !(EFloat.blt b a)

/-- Binary minimum on the extended scalars. -/
def EFloat.min (a b : EFloat) : EFloat := if EFloat.blt a b then a else b

/-- Binary maximum on the extended scalars. -/
def EFloat.max (a b : EFloat) : EFloat := if EFloat.blt a b then b else a

/-- Multiplication on the extended scalars with the IEEE sign rules for
infinite factors; the NaN cases (infinity times zero) are mapped to zero and
never arise in the verified statements. -/
def EFloat.mul : EFloat → EFloat → EFloat
  | EFloat.fin a, EFloat.fin b => EFloat.fin (a * b)
  | EFloat.negInf, EFloat.negInf => EFloat.posInf
  | EFloat.negInf, EFloat.posInf => EFloat.negInf
  | EFloat.posInf, EFloat.negInf => EFloat.negInf
  | EFloat.posInf, EFloat.posInf => EFloat.posInf
  | EFloat.posInf, EFloat.fin b =>
      if 0 < b then EFloat.posInf else if b < 0 then EFloat.negInf else EFloat.fin 0
  | EFloat.negInf, EFloat.fin b =>
      if 0 < b then EFloat.negInf else if b < 0 then EFloat.posInf else EFloat.fin 0
  | EFloat.fin a, EFloat.posInf =>
      if 0 < a then EFloat.posInf else if a < 0 then EFloat.negInf else EFloat.fin 0
  | EFloat.fin a, EFloat.negInf =>
      if 0 < a then EFloat.negInf else if a < 0 then EFloat.posInf else EFloat.fin 0

/-- An assimp aiMesh: the sub-mesh vertex list (the only part
MeshShape.cpp reads). -/
structure AiMesh where
  mVertices : List (V3 EFloat)

/-- An assimp aiScene: the sub-mesh list and the root node's transformation
(tracked only as whether it is the identity, which is all MeshShape.cpp
does with it). -/
structure AiScene where
  mMeshes : List AiMesh
  mRootTransformIsIdentity : Bool

/-- SharedMeshWrapper from MeshShape.cpp: owns an aiScene pointer, which may
be null (aiApplyPostProcessing can fail after a successful import). -/
structure SharedMeshWrapper where
  mesh : Option AiScene

/-- A resource retriever: MeshShape.cpp only calls getFilePath on it. -/
structure ResourceRetriever where
  getFilePath : String → String

/-- The bounding box stored on the Shape base class, as set by
updateBoundingBox. -/
structure BoundingBox where
  min : V3 EFloat
  max : V3 EFloat

/-- The MeshShape state: the fields of dart::dynamics::MeshShape that
MeshShape.cpp reads or writes (common::Uri is modelled by its string
form). -/
structure MeshShape where
  mMesh : Option SharedMeshWrapper
  mMeshUri : String
  mMeshPath : String
  mResourceRetriever : Option ResourceRetriever
  mScale : V3 EFloat
  mIsBoundingBoxDirty : Bool
  mIsVolumeDirty : Bool
  mBoundingBox : BoundingBox
  mVolume : EFloat
  mDisplayList : Int
  mColorIndex : Int
  mDontFreeMesh : Bool
  mVersion : Nat

/-- MeshShape::setMesh (the Uri overload): stores the wrapper; a null mesh
clears the URI, the path and the retriever; otherwise the URI is stored, the
path is looked up through the retriever (or cleared when there is none), and
the version is bumped. -/
def MeshShape.setMesh (s : MeshShape) (mesh : Option SharedMeshWrapper)
    (uri : String) (resourceRetriever : Option ResourceRetriever) : MeshShape :=
  let s1 := { s with mMesh := mesh }
  match mesh with
  | none =>
      { s1 with mMeshUri := "", mMeshPath := "", mResourceRetriever := none }
  | some _ =>
      let s2 := { s1 with mMeshUri := uri }
      let s3 :=
        match resourceRetriever with
        | some r => { s2 with mMeshPath := r.getFilePath uri }
        | none => { s2 with mMeshPath := "" }
      { s3 with mResourceRetriever := resourceRetriever,
                mVersion := s3.mVersion + 1 }

/-- The assertion guarding MeshShape::setScale:
`(scale.array() > 0.0).all()`. -/
def scaleAllPositive (scale : V3 EFloat) : Bool :=
  EFloat.blt (EFloat.fin 0) scale.x && EFloat.blt (EFloat.fin 0) scale.y
    && EFloat.blt (EFloat.fin 0) scale.z

/-- MeshShape::setScale: stores the scale, marks the bounding box and the
volume dirty, and bumps the version. -/
def MeshShape.setScale (s : MeshShape) (scale : V3 EFloat) : MeshShape :=
  { s with mScale := scale, mIsBoundingBoxDirty := true, mIsVolumeDirty := true,
           mVersion := s.mVersion + 1 }

/-- MeshShape::getScale. -/
def MeshShape.getScale (s : MeshShape) : V3 EFloat := s.mScale

/-- MeshShape::getMeshUri: the stored URI rendered as a string. -/
def MeshShape.getMeshUri (s : MeshShape) : String := s.mMeshUri

/-- MeshShape::getMeshPath. -/
def MeshShape.getMeshPath (s : MeshShape) : String := s.mMeshPath

/-- The MeshShape constructor taking an already-loaded mesh: after the
base-class initializer list it runs setMesh followed by setScale, as in the
source. -/
def MeshShape.construct (scale : V3 EFloat) (mesh : Option SharedMeshWrapper)
    (path : String) (resourceRetriever : Option ResourceRetriever)
    (dontFreeMesh : Bool) : MeshShape :=
  let s0 : MeshShape :=
    { mMesh := none, mMeshUri := "", mMeshPath := "", mResourceRetriever := none,
      mScale := ⟨EFloat.fin 1, EFloat.fin 1, EFloat.fin 1⟩, mIsBoundingBoxDirty := true,
      mIsVolumeDirty := true,
      mBoundingBox := ⟨⟨EFloat.fin 0, EFloat.fin 0, EFloat.fin 0⟩,
                       ⟨EFloat.fin 0, EFloat.fin 0, EFloat.fin 0⟩⟩,
      mVolume := EFloat.fin 0, mDisplayList := 0, mColorIndex := 0,
      mDontFreeMesh := dontFreeMesh, mVersion := 0 }
  (s0.setMesh mesh path resourceRetriever).setScale scale

/-- MeshShape::clone: builds a fresh MeshShape from the same shared mesh
wrapper, URI and scale, with a null retriever and dontFreeMesh set, then
copies the mesh path over. -/
def MeshShape.clone (s : MeshShape) : MeshShape :=
  let shape := MeshShape.construct s.mScale s.mMesh s.mMeshUri none true
  { shape with mMeshPath := s.mMeshPath }

/-- The six accumulators of updateBoundingBox's vertex loop. -/
structure BBAcc where
  maxX : EFloat
  maxY : EFloat
  maxZ : EFloat
  minX : EFloat
  minY : EFloat
  minZ : EFloat

/-- One iteration of updateBoundingBox's inner loop: the six comparisons of
one vertex against the accumulators, in source order. -/
def stepVert (acc : BBAcc) (v : V3 EFloat) : BBAcc :=
  let a1 := if EFloat.blt acc.maxX v.x then { acc with maxX := v.x } else acc
  let a2 := if EFloat.blt v.x a1.minX then { a1 with minX := v.x } else a1
  let a3 := if EFloat.blt a2.maxY v.y then { a2 with maxY := v.y } else a2
  let a4 := if EFloat.blt v.y a3.minY then { a3 with minY := v.y } else a3
  let a5 := if EFloat.blt a4.maxZ v.z then { a4 with maxZ := v.z } else a4
  let a6 := if EFloat.blt v.z a5.minZ then { a5 with minZ := v.z } else a5
  a6

/-- updateBoundingBox's inner loop over one sub-mesh's vertices. -/
def foldVertices (acc : BBAcc) (vs : List (V3 EFloat)) : BBAcc :=
  vs.foldl stepVert acc

/-- updateBoundingBox's outer loop over the scene's sub-meshes. -/
def foldMeshes (acc : BBAcc) (ms : List AiMesh) : BBAcc :=
  ms.foldl (fun a m => foldVertices a m.mVertices) acc

/-- The sub-mesh list reached through getMesh().  When the wrapper holds a
null aiScene the C++ dereferences a null pointer (undefined behavior); that
case is modelled as an empty list and is unreachable under the hypotheses of
the bounding-box theorem. -/
def sceneMeshes (w : SharedMeshWrapper) : List AiMesh :=
  match w.mesh with
  | some scene => scene.mMeshes
  | none => []

/-- MeshShape::updateBoundingBox: with no mesh the box is set to the zero
box; otherwise the six accumulators start at the infinities, every vertex of
every sub-mesh is folded in, and the scaled extrema are stored; either way
the dirty flag is cleared. -/
def MeshShape.updateBoundingBox (s : MeshShape) : MeshShape :=
  match s.mMesh with
  | none =>
      { s with mBoundingBox := ⟨⟨EFloat.fin 0, EFloat.fin 0, EFloat.fin 0⟩,
                                ⟨EFloat.fin 0, EFloat.fin 0, EFloat.fin 0⟩⟩,
               mIsBoundingBoxDirty := false }
  | some wrapper =>
      let acc := foldMeshes
        ⟨EFloat.negInf, EFloat.negInf, EFloat.negInf,
         EFloat.posInf, EFloat.posInf, EFloat.posInf⟩
        (sceneMeshes wrapper)
      { s with
        mBoundingBox :=
          ⟨⟨EFloat.mul acc.minX s.mScale.x, EFloat.mul acc.minY s.mScale.y,
            EFloat.mul acc.minZ s.mScale.z⟩,
           ⟨EFloat.mul acc.maxX s.mScale.x, EFloat.mul acc.maxY s.mScale.y,
            EFloat.mul acc.maxZ s.mScale.z⟩⟩,
        mIsBoundingBoxDirty := false }

/-- The extension of a URI as computed in MeshShape::loadMesh: the substring
from the last dot (inclusive), lowercased; empty when there is no dot. -/
def afterLastDot : List Char → Option (List Char)
  | [] => none
  | c :: rest =>
      match afterLastDot rest with
      | some s => some s
      | none => if c = '.' then some (c :: rest) else none

/-- The lowercased extension string of a URI. -/
def extensionOf (uri : String) : String :=
  match afterLastDot uri.data with
  | some s => String.mk (s.map Char.toLower)
  | none => ""

/-- MeshShape::loadMesh: the assimp import and post-processing steps are
opaque external collaborators, passed as functions.  A failed import warns
and returns a null wrapper; a successful import of a collada file (.dae or
.zae) has its root transformation reset to the identity; the post-processing
result (null or not) is wrapped and returned. -/
def loadMesh (importScene : String → Option AiScene)
    (applyPostProcessing : AiScene → Option AiScene) (uri : String) :
    Option SharedMeshWrapper :=
  match importScene uri with
  | none => none
  | some scene =>
      let ext2 := extensionOf uri
      let scene2 :=
        if ext2 = ".dae" ∨ ext2 = ".zae" then
          { scene with mRootTransformIsIdentity := true }
        else scene
      some ⟨applyPostProcessing scene2⟩

/-- A concrete two-vertex scene used to exercise the bounding-box
computation. -/
def demoScene : AiScene :=
  ⟨[⟨[⟨EFloat.fin 1, EFloat.fin 2, EFloat.fin 3⟩,
      ⟨EFloat.fin (-1), EFloat.fin 5, EFloat.fin 0⟩]⟩], true⟩

/-- A concrete MeshShape holding demoScene at scale (2, 2, 2). -/
def demoShape : MeshShape :=
  MeshShape.construct ⟨EFloat.fin 2, EFloat.fin 2, EFloat.fin 2⟩
    (some ⟨some demoScene⟩) "file://demo.obj" none false

theorem alookup_upsert_self {α : Type} (l : List (String × α)) (k : String) (v : α) :
    alookup (upsert l k v) k = some v := by
  induction l with
  | nil => simp [upsert, alookup]
  | cons hd tl ih =>
      obtain ⟨k2, v2⟩ := hd
      by_cases h : k2 = k
      · simp [upsert, h, alookup]
      · simp [upsert, h, alookup, ih]

theorem alookup_upsert_ne {α : Type} (l : List (String × α)) (k k2 : String)
    (v : α) (h : k2 ≠ k) : alookup (upsert l k v) k2 = alookup l k2 := by
  induction l with
  | nil => simp [upsert, alookup, Ne.symm h]
  | cons hd tl ih =>
      obtain ⟨k3, v3⟩ := hd
      by_cases h3 : k3 = k
      · subst h3
        simp [upsert, alookup, Ne.symm h]
      · simp [upsert, alookup, h3, ih]

theorem alookup_removeKey_self {α : Type} (l : List (String × α)) (k : String) :
    alookup (removeKey l k) k = none := by
  induction l with
  | nil => simp [removeKey, alookup]
  | cons hd tl ih =>
      obtain ⟨k2, v2⟩ := hd
      by_cases h : k2 = k
      · simp [removeKey, h, ih]
      · simp [removeKey, alookup, h, ih]

theorem alookup_removeKey_ne {α : Type} (l : List (String × α)) (k k2 : String)
    (h : k2 ≠ k) : alookup (removeKey l k) k2 = alookup l k2 := by
  induction l with
  | nil => simp [removeKey]
  | cons hd tl ih =>
      obtain ⟨k3, v3⟩ := hd
      by_cases h3 : k3 = k
      · subst h3
        simp [removeKey, alookup, Ne.symm h, ih]
      · simp [removeKey, alookup, h3, ih]

theorem length_upsert_present {α : Type} (l : List (String × α)) (k : String)
    (v o : α) (h : alookup l k = some o) : (upsert l k v).length = l.length := by
  induction l with
  | nil => simp [alookup] at h
  | cons hd tl ih =>
      obtain ⟨k2, v2⟩ := hd
      by_cases hk : k2 = k
      · simp [upsert, hk]
      · simp [alookup, hk] at h
        simp [upsert, hk, ih h]

theorem keysNodup_upsert {α : Type} (l : List (String × α)) (k : String) (v : α)
    (h : KeysNodup l) : KeysNodup (upsert l k v) := by
  induction l with
  | nil => simp [upsert, KeysNodup, alookup]
  | cons hd tl ih =>
      obtain ⟨k2, v2⟩ := hd
      rw [KeysNodup] at h
      by_cases hk : k2 = k
      · subst hk
        simpa [upsert, KeysNodup] using h
      · rw [upsert]
        simp only [if_neg hk]
        rw [KeysNodup]
        exact ⟨by rw [alookup_upsert_ne tl k k2 v hk, h.1], ih h.2⟩

theorem keysNodup_removeKey {α : Type} (l : List (String × α)) (k : String)
    (h : KeysNodup l) : KeysNodup (removeKey l k) := by
  induction l with
  | nil => simp [removeKey, KeysNodup]
  | cons hd tl ih =>
      obtain ⟨k2, v2⟩ := hd
      rw [KeysNodup] at h
      by_cases hk : k2 = k
      · rw [removeKey]
        simp only [if_pos hk]
        exact ih h.2
      · rw [removeKey]
        simp only [if_neg hk]
        rw [KeysNodup]
        exact ⟨by rw [alookup_removeKey_ne tl k k2 hk, h.1], ih h.2⟩

/-- C1: For every key `k` and every position `p`, `createBox(k, size, p,
euler, color, castShadows, receiveShadows)` followed by
`getObjectPosition(k)` returns exactly `p`. -/
theorem createBox_getObjectPosition_roundtrip
    (st : GUIStateMachine) (k : String) (size p euler color : V3 ℚ)
    (cs rs : Bool) :
    (st.createBox k size p euler color cs rs).getObjectPosition k =
      Except.ok p := by
  simp [GUIStateMachine.createBox, GUIStateMachine.getObjectPosition,
    alookup_upsert_self]

/-- C3: getters on an absent key fail with NotFoundError; every getter fails
on `k` immediately after `deleteObject(k)`; and after `clear()` every getter
on every key fails with NotFoundError. -/
theorem absent_key_getters_fail_notFound :
    (∀ (st : GUIStateMachine) (k : String), alookup st.objects k = none →
       st.getObjectPosition k = Except.error GuiError.NotFoundError
       ∧ st.getObjectRotation k = Except.error GuiError.NotFoundError
       ∧ st.getObjectColor k = Except.error GuiError.NotFoundError)
    ∧ (∀ (st : GUIStateMachine) (k : String),
       (st.deleteObject k).1.getObjectPosition k = Except.error GuiError.NotFoundError
       ∧ (st.deleteObject k).1.getObjectRotation k = Except.error GuiError.NotFoundError
       ∧ (st.deleteObject k).1.getObjectColor k = Except.error GuiError.NotFoundError)
    ∧ (∀ (st : GUIStateMachine) (k : String),
       st.clear.getObjectPosition k = Except.error GuiError.NotFoundError
       ∧ st.clear.getObjectRotation k = Except.error GuiError.NotFoundError
       ∧ st.clear.getObjectColor k = Except.error GuiError.NotFoundError) := by
  refine ⟨fun st k h => ?_, fun st k => ?_, fun st k => ?_⟩
  · simp [GUIStateMachine.getObjectPosition, GUIStateMachine.getObjectRotation,
      GUIStateMachine.getObjectColor, h]
  · cases h : alookup st.objects k with
    | none =>
        simp [GUIStateMachine.deleteObject, h,
          GUIStateMachine.getObjectPosition, GUIStateMachine.getObjectRotation,
          GUIStateMachine.getObjectColor]
    | some o =>
        simp [GUIStateMachine.deleteObject, h,
          GUIStateMachine.getObjectPosition, GUIStateMachine.getObjectRotation,
          GUIStateMachine.getObjectColor, alookup_removeKey_self]
  · simp [GUIStateMachine.clear, GUIStateMachine.getObjectPosition,
      GUIStateMachine.getObjectRotation, GUIStateMachine.getObjectColor, alookup]

/-- Witness for C3 at a concrete state with key "b1" absent. -/
theorem absent_key_getters_fail_notFound_witness :
    (GUIStateMachine.empty.createBox "b1" ⟨1, 1, 1⟩ ⟨0, 0, 0⟩ ⟨0, 0, 0⟩
        ⟨1/2, 1/2, 1/2⟩ true false).getObjectPosition "b2" =
      Except.error GuiError.NotFoundError :=
  (absent_key_getters_fail_notFound.1
    (GUIStateMachine.empty.createBox "b1" ⟨1, 1, 1⟩ ⟨0, 0, 0⟩ ⟨0, 0, 0⟩
      ⟨1/2, 1/2, 1/2⟩ true false) "b2" (by decide)).1

/-- C6: deleting an absent key is a no-op with a soft warning: the registry
state (including the pending diff buffer) is unchanged and the warning flag
is reported instead of a NotFoundError. -/
theorem deleteObject_absent_soft_warning (st : GUIStateMachine) (k : String)
    (h : alookup st.objects k = none) : st.deleteObject k = (st, true) := by
  simp [GUIStateMachine.deleteObject, h]

/-- Witness for C6 at a concrete state. -/
theorem deleteObject_absent_soft_warning_witness :
    GUIStateMachine.empty.deleteObject "ghost" = (GUIStateMachine.empty, true) :=
  deleteObject_absent_soft_warning GUIStateMachine.empty "ghost" (by decide)

theorem keysNodup_runOp (st : GUIStateMachine) (op : MutOp)
    (hobj : KeysNodup st.objects) (hwid : KeysNodup st.widgets) :
    KeysNodup (runOp st op).objects ∧ KeysNodup (runOp st op).widgets := by
  cases op with
  | createBox k size pos euler color cs rs =>
      exact ⟨keysNodup_upsert _ _ _ hobj, hwid⟩
  | createSphere k radius pos color cs rs =>
      exact ⟨keysNodup_upsert _ _ _ hobj, hwid⟩
  | createLine k points color =>
      exact ⟨keysNodup_upsert _ _ _ hobj, hwid⟩
  | createMeshFromShape k mesh pos euler scale color cs rs =>
      exact ⟨keysNodup_upsert _ _ _ hobj, hwid⟩
  | setObjectPosition k p =>
      cases h : alookup st.objects k with
      | none =>
          simpa [runOp, GUIStateMachine.setObjectPosition, h] using ⟨hobj, hwid⟩
      | some o =>
          simpa [runOp, GUIStateMachine.setObjectPosition, h] using
            ⟨keysNodup_upsert _ _ _ hobj, hwid⟩
  | setObjectRotation k e =>
      cases h : alookup st.objects k with
      | none =>
          simpa [runOp, GUIStateMachine.setObjectRotation, h] using ⟨hobj, hwid⟩
      | some o =>
          simpa [runOp, GUIStateMachine.setObjectRotation, h] using
            ⟨keysNodup_upsert _ _ _ hobj, hwid⟩
  | setObjectColor k c =>
      cases h : alookup st.objects k with
      | none =>
          simpa [runOp, GUIStateMachine.setObjectColor, h] using ⟨hobj, hwid⟩
      | some o =>
          simpa [runOp, GUIStateMachine.setObjectColor, h] using
            ⟨keysNodup_upsert _ _ _ hobj, hwid⟩
  | deleteObject k =>
      cases h : alookup st.objects k with
      | none =>
          simpa [runOp, GUIStateMachine.deleteObject, h] using ⟨hobj, hwid⟩
      | some o =>
          simpa [runOp, GUIStateMachine.deleteObject, h] using
            ⟨keysNodup_removeKey _ _ hobj, hwid⟩
  | createText k contents ftl size =>
      exact ⟨hobj, keysNodup_upsert _ _ _ hwid⟩
  | createButton k label ftl size onClick =>
      exact ⟨hobj, keysNodup_upsert _ _ _ hwid⟩
  | createSlider k ftl size mn mx v oi hz oc =>
      exact ⟨hobj, keysNodup_upsert _ _ _ hwid⟩
  | createPlot k ftl size xs mnx mxx ys mny mxy pt =>
      exact ⟨hobj, keysNodup_upsert _ _ _ hwid⟩
  | setUIElementPosition k p =>
      cases h : alookup st.widgets k with
      | none =>
          simpa [runOp, GUIStateMachine.setUIElementPosition, h] using ⟨hobj, hwid⟩
      | some w =>
          simpa [runOp, GUIStateMachine.setUIElementPosition, h] using
            ⟨hobj, keysNodup_upsert _ _ _ hwid⟩
  | setUIElementSize k s =>
      cases h : alookup st.widgets k with
      | none =>
          simpa [runOp, GUIStateMachine.setUIElementSize, h] using ⟨hobj, hwid⟩
      | some w =>
          simpa [runOp, GUIStateMachine.setUIElementSize, h] using
            ⟨hobj, keysNodup_upsert _ _ _ hwid⟩
  | setTextContents k c =>
      cases h : alookup st.widgets k with
      | none =>
          simpa [runOp, GUIStateMachine.setTextContents, h] using ⟨hobj, hwid⟩
      | some w =>
          simpa [runOp, GUIStateMachine.setTextContents, h] using
            ⟨hobj, keysNodup_upsert _ _ _ hwid⟩
  | setButtonLabel k l =>
      cases h : alookup st.widgets k with
      | none =>
          simpa [runOp, GUIStateMachine.setButtonLabel, h] using ⟨hobj, hwid⟩
      | some w =>
          simpa [runOp, GUIStateMachine.setButtonLabel, h] using
            ⟨hobj, keysNodup_upsert _ _ _ hwid⟩
  | setSliderValue k v =>
      cases h : alookup st.widgets k with
      | none =>
          simpa [runOp, GUIStateMachine.setSliderValue, h] using ⟨hobj, hwid⟩
      | some w =>
          simpa [runOp, GUIStateMachine.setSliderValue, h] using
            ⟨hobj, keysNodup_upsert _ _ _ hwid⟩
  | setSliderMin k v =>
      cases h : alookup st.widgets k with
      | none =>
          simpa [runOp, GUIStateMachine.setSliderMin, h] using ⟨hobj, hwid⟩
      | some w =>
          simpa [runOp, GUIStateMachine.setSliderMin, h] using
            ⟨hobj, keysNodup_upsert _ _ _ hwid⟩
  | setSliderMax k v =>
      cases h : alookup st.widgets k with
      | none =>
          simpa [runOp, GUIStateMachine.setSliderMax, h] using ⟨hobj, hwid⟩
      | some w =>
          simpa [runOp, GUIStateMachine.setSliderMax, h] using
            ⟨hobj, keysNodup_upsert _ _ _ hwid⟩
  | setPlotData k xs mnx mxx ys mny mxy =>
      cases h : alookup st.widgets k with
      | none =>
          simpa [runOp, GUIStateMachine.setPlotData, h] using ⟨hobj, hwid⟩
      | some w =>
          simpa [runOp, GUIStateMachine.setPlotData, h] using
            ⟨hobj, keysNodup_upsert _ _ _ hwid⟩
  | deleteUIElement k =>
      cases h : alookup st.widgets k with
      | none =>
          simpa [runOp, GUIStateMachine.deleteUIElement, h] using ⟨hobj, hwid⟩
      | some w =>
          simpa [runOp, GUIStateMachine.deleteUIElement, h] using
            ⟨hobj, keysNodup_removeKey _ _ hwid⟩
  | clear =>
      simp [runOp, GUIStateMachine.clear, KeysNodup]

/-- C4: re-creating an existing key overwrites in place: the object count is
unchanged for every createX on a present key, the entry equals the newly
supplied field values (reads reflect them), and key uniqueness is an
invariant of every mutating operation. -/
theorem recreate_overwrites_in_place :
    (∀ (st : GUIStateMachine) (k : String) (o : SceneObject)
       (size pos euler color : V3 ℚ) (cs rs : Bool),
       alookup st.objects k = some o →
       (st.createBox k size pos euler color cs rs).objects.length
           = st.objects.length
       ∧ alookup (st.createBox k size pos euler color cs rs).objects k
           = some ⟨GeomParams.box size, pos, euler, ⟨1, 1, 1⟩, color, cs, rs⟩
       ∧ (st.createBox k size pos euler color cs rs).getObjectPosition k
           = Except.ok pos
       ∧ (st.createBox k size pos euler color cs rs).getObjectRotation k
           = Except.ok euler
       ∧ (st.createBox k size pos euler color cs rs).getObjectColor k
           = Except.ok color)
    ∧ (∀ (st : GUIStateMachine) (k : String) (o : SceneObject) (radius : ℚ)
         (pos color : V3 ℚ) (cs rs : Bool),
       alookup st.objects k = some o →
       (st.createSphere k radius pos color cs rs).objects.length
           = st.objects.length
       ∧ alookup (st.createSphere k radius pos color cs rs).objects k
           = some ⟨GeomParams.sphere radius, pos, ⟨0, 0, 0⟩, ⟨1, 1, 1⟩, color, cs, rs⟩)
    ∧ (∀ (st : GUIStateMachine) (k : String) (o : SceneObject)
         (points : List (V3 ℚ)) (color : V3 ℚ),
       alookup st.objects k = some o →
       (st.createLine k points color).objects.length = st.objects.length
       ∧ alookup (st.createLine k points color).objects k
           = some ⟨GeomParams.line points, ⟨0, 0, 0⟩, ⟨0, 0, 0⟩, ⟨1, 1, 1⟩, color,
               true, false⟩)
    ∧ (∀ (st : GUIStateMachine) (k : String) (o : SceneObject) (mesh : Nat)
         (pos euler scale color : V3 ℚ) (cs rs : Bool),
       alookup st.objects k = some o →
       (st.createMeshFromShape k mesh pos euler scale color cs rs).objects.length
           = st.objects.length
       ∧ alookup (st.createMeshFromShape k mesh pos euler scale color cs rs).objects k
           = some ⟨GeomParams.mesh mesh, pos, euler, scale, color, cs, rs⟩)
    ∧ (∀ (st : GUIStateMachine) (op : MutOp),
       KeysNodup st.objects → KeysNodup st.widgets →
       KeysNodup (runOp st op).objects ∧ KeysNodup (runOp st op).widgets) := by
  refine ⟨fun st k o size pos euler color cs rs h => ?_,
          fun st k o radius pos color cs rs h => ?_,
          fun st k o points color h => ?_,
          fun st k o mesh pos euler scale color cs rs h => ?_,
          fun st op hobj hwid => keysNodup_runOp st op hobj hwid⟩
  · exact ⟨length_upsert_present _ _ _ _ h,
      alookup_upsert_self _ _ _,
      by simp [GUIStateMachine.createBox, GUIStateMachine.getObjectPosition,
        alookup_upsert_self],
      by simp [GUIStateMachine.createBox, GUIStateMachine.getObjectRotation,
        alookup_upsert_self],
      by simp [GUIStateMachine.createBox, GUIStateMachine.getObjectColor,
        alookup_upsert_self]⟩
  · exact ⟨length_upsert_present _ _ _ _ h, alookup_upsert_self _ _ _⟩
  · exact ⟨length_upsert_present _ _ _ _ h, alookup_upsert_self _ _ _⟩
  · exact ⟨length_upsert_present _ _ _ _ h, alookup_upsert_self _ _ _⟩

/-- Witness for C4: re-creating key "b1" keeps the object count at one and
reads back the new position. -/
theorem recreate_overwrites_in_place_witness :
    ((GUIStateMachine.empty.createBox "b1" ⟨1, 1, 1⟩ ⟨0, 0, 0⟩ ⟨0, 0, 0⟩
        ⟨1, 0, 0⟩ true false).createBox "b1" ⟨2, 2, 2⟩ ⟨1, 2, 3⟩ ⟨0, 0, 0⟩
        ⟨0, 1, 0⟩ true false).objects.length =
      (GUIStateMachine.empty.createBox "b1" ⟨1, 1, 1⟩ ⟨0, 0, 0⟩ ⟨0, 0, 0⟩
        ⟨1, 0, 0⟩ true false).objects.length
    ∧ ((GUIStateMachine.empty.createBox "b1" ⟨1, 1, 1⟩ ⟨0, 0, 0⟩ ⟨0, 0, 0⟩
        ⟨1, 0, 0⟩ true false).createBox "b1" ⟨2, 2, 2⟩ ⟨1, 2, 3⟩ ⟨0, 0, 0⟩
        ⟨0, 1, 0⟩ true false).getObjectPosition "b1" = Except.ok ⟨1, 2, 3⟩ := by
  have h := (recreate_overwrites_in_place.1
    (GUIStateMachine.empty.createBox "b1" ⟨1, 1, 1⟩ ⟨0, 0, 0⟩ ⟨0, 0, 0⟩
      ⟨1, 0, 0⟩ true false) "b1"
    ⟨GeomParams.box ⟨1, 1, 1⟩, ⟨0, 0, 0⟩, ⟨0, 0, 0⟩, ⟨1, 1, 1⟩,
      ⟨1, 0, 0⟩, true, false⟩
    ⟨2, 2, 2⟩ ⟨1, 2, 3⟩ ⟨0, 0, 0⟩ ⟨0, 1, 0⟩ true false
    (by simp [GUIStateMachine.createBox, GUIStateMachine.empty, upsert, alookup]))
  exact ⟨h.1, h.2.2.1⟩

/-- C5: every successful mutating call appends exactly one diff event to the
pending buffer; an update event's field mapping holds exactly the field(s)
the call changed (e.g. setObjectPosition carries only the position field),
while a creation event carries all fields of the created entry, and clear
records the single full-reset event. -/
theorem mutation_emits_one_scoped_diff :
    (∀ (st : GUIStateMachine) (k : String) (size pos euler color : V3 ℚ)
       (cs rs : Bool),
       (st.createBox k size pos euler color cs rs).events = st.events ++
         [DiffEvent.mut DiffOp.create TargetKind.object k { Fields.empty with params := some (GeomParams.box size), pos := some pos, euler := some euler, scale := some ⟨1, 1, 1⟩, color := some color, castShadows := some cs, receiveShadows := some rs }])
    ∧ (∀ (st : GUIStateMachine) (k : String) (radius : ℚ) (pos color : V3 ℚ)
         (cs rs : Bool),
       (st.createSphere k radius pos color cs rs).events = st.events ++
         [DiffEvent.mut DiffOp.create TargetKind.object k { Fields.empty with params := some (GeomParams.sphere radius), pos := some pos, euler := some ⟨0, 0, 0⟩, scale := some ⟨1, 1, 1⟩, color := some color, castShadows := some cs, receiveShadows := some rs }])
    ∧ (∀ (st : GUIStateMachine) (k : String) (points : List (V3 ℚ))
         (color : V3 ℚ),
       (st.createLine k points color).events = st.events ++
         [DiffEvent.mut DiffOp.create TargetKind.object k { Fields.empty with params := some (GeomParams.line points), pos := some ⟨0, 0, 0⟩, euler := some ⟨0, 0, 0⟩, scale := some ⟨1, 1, 1⟩, color := some color, castShadows := some true, receiveShadows := some false }])
    ∧ (∀ (st : GUIStateMachine) (k : String) (mesh : Nat)
         (pos euler scale color : V3 ℚ) (cs rs : Bool),
       (st.createMeshFromShape k mesh pos euler scale color cs rs).events =
         st.events ++
         [DiffEvent.mut DiffOp.create TargetKind.object k { Fields.empty with params := some (GeomParams.mesh mesh), pos := some pos, euler := some euler, scale := some scale, color := some color, castShadows := some cs, receiveShadows := some rs }])
    ∧ (∀ (st st2 : GUIStateMachine) (k : String) (p : V3 ℚ),
       st.setObjectPosition k p = Except.ok st2 →
       st2.events = st.events ++
         [DiffEvent.mut DiffOp.update TargetKind.object k { Fields.empty with pos := some p }])
    ∧ (∀ (st st2 : GUIStateMachine) (k : String) (e : V3 ℚ),
       st.setObjectRotation k e = Except.ok st2 →
       st2.events = st.events ++
         [DiffEvent.mut DiffOp.update TargetKind.object k { Fields.empty with euler := some e }])
    ∧ (∀ (st st2 : GUIStateMachine) (k : String) (c : V3 ℚ),
       st.setObjectColor k c = Except.ok st2 →
       st2.events = st.events ++
         [DiffEvent.mut DiffOp.update TargetKind.object k { Fields.empty with color := some c }])
    ∧ (∀ (st : GUIStateMachine) (k : String) (o : SceneObject),
       alookup st.objects k = some o →
       (st.deleteObject k).1.events = st.events ++
         [DiffEvent.mut DiffOp.delete TargetKind.object k Fields.empty])
    ∧ (∀ (st : GUIStateMachine) (k contents : String) (ftl size : V2 ℚ),
       (st.createText k contents ftl size).events = st.events ++
         [DiffEvent.mut DiffOp.create TargetKind.widget k (widgetCreateFields ⟨WidgetKind.text, ftl, size, contents, "", 0, 0, 1, 0, false, true, 0, [], 0, 1, [], 0, 1, "line"⟩)])
    ∧ (∀ (st : GUIStateMachine) (k label : String) (ftl size : V2 ℚ)
         (onClick : Nat),
       (st.createButton k label ftl size onClick).events = st.events ++
         [DiffEvent.mut DiffOp.create TargetKind.widget k (widgetCreateFields ⟨WidgetKind.button, ftl, size, "", label, onClick, 0, 1, 0, false, true, 0, [], 0, 1, [], 0, 1, "line"⟩)])
    ∧ (∀ (st : GUIStateMachine) (k : String) (ftl size : V2 ℚ) (mn mx v : ℚ)
         (oi hz : Bool) (oc : Nat),
       (st.createSlider k ftl size mn mx v oi hz oc).events = st.events ++
         [DiffEvent.mut DiffOp.create TargetKind.widget k (widgetCreateFields ⟨WidgetKind.slider, ftl, size, "", "", 0, mn, mx, v, oi, hz, oc, [], 0, 1, [], 0, 1, "line"⟩)])
    ∧ (∀ (st : GUIStateMachine) (k : String) (ftl size : V2 ℚ) (xs : List ℚ)
         (mnx mxx : ℚ) (ys : List ℚ) (mny mxy : ℚ) (pt : String),
       (st.createPlot k ftl size xs mnx mxx ys mny mxy pt).events = st.events ++
         [DiffEvent.mut DiffOp.create TargetKind.widget k (widgetCreateFields ⟨WidgetKind.plot, ftl, size, "", "", 0, 0, 1, 0, false, true, 0, xs, mnx, mxx, ys, mny, mxy, pt⟩)])
    ∧ (∀ (st st2 : GUIStateMachine) (k : String) (p : V2 ℚ),
       st.setUIElementPosition k p = Except.ok st2 →
       st2.events = st.events ++
         [DiffEvent.mut DiffOp.update TargetKind.widget k { Fields.empty with fromTopLeft := some p }])
    ∧ (∀ (st st2 : GUIStateMachine) (k : String) (s : V2 ℚ),
       st.setUIElementSize k s = Except.ok st2 →
       st2.events = st.events ++
         [DiffEvent.mut DiffOp.update TargetKind.widget k { Fields.empty with wsize := some s }])
    ∧ (∀ (st st2 : GUIStateMachine) (k contents : String),
       st.setTextContents k contents = Except.ok st2 →
       st2.events = st.events ++
         [DiffEvent.mut DiffOp.update TargetKind.widget k { Fields.empty with contents := some contents }])
    ∧ (∀ (st st2 : GUIStateMachine) (k label : String),
       st.setButtonLabel k label = Except.ok st2 →
       st2.events = st.events ++
         [DiffEvent.mut DiffOp.update TargetKind.widget k { Fields.empty with label := some label }])
    ∧ (∀ (st st2 : GUIStateMachine) (k : String) (v : ℚ),
       st.setSliderValue k v = Except.ok st2 →
       st2.events = st.events ++
         [DiffEvent.mut DiffOp.update TargetKind.widget k { Fields.empty with sliderValue := some v }])
    ∧ (∀ (st st2 : GUIStateMachine) (k : String) (v : ℚ),
       st.setSliderMin k v = Except.ok st2 →
       st2.events = st.events ++
         [DiffEvent.mut DiffOp.update TargetKind.widget k { Fields.empty with sliderMin := some v }])
    ∧ (∀ (st st2 : GUIStateMachine) (k : String) (v : ℚ),
       st.setSliderMax k v = Except.ok st2 →
       st2.events = st.events ++
         [DiffEvent.mut DiffOp.update TargetKind.widget k { Fields.empty with sliderMax := some v }])
    ∧ (∀ (st st2 : GUIStateMachine) (k : String) (xs : List ℚ) (mnx mxx : ℚ)
         (ys : List ℚ) (mny mxy : ℚ),
       st.setPlotData k xs mnx mxx ys mny mxy = Except.ok st2 →
       st2.events = st.events ++
         [DiffEvent.mut DiffOp.update TargetKind.widget k { Fields.empty with plotXs := some xs, plotMinX := some mnx, plotMaxX := some mxx, plotYs := some ys, plotMinY := some mny, plotMaxY := some mxy }])
    ∧ (∀ (st : GUIStateMachine) (k : String) (w : UIWidget),
       alookup st.widgets k = some w →
       (st.deleteUIElement k).1.events = st.events ++
         [DiffEvent.mut DiffOp.delete TargetKind.widget k Fields.empty])
    ∧ (∀ st : GUIStateMachine,
       st.clear.events = st.events ++ [DiffEvent.reset]) := by
  refine ⟨fun st k size pos euler color cs rs => rfl,
          fun st k radius pos color cs rs => rfl,
          fun st k points color => rfl,
          fun st k mesh pos euler scale color cs rs => rfl,
          fun st st2 k p h => ?_, fun st st2 k e h => ?_, fun st st2 k c h => ?_,
          fun st k o h => ?_,
          fun st k contents ftl size => rfl,
          fun st k label ftl size onClick => rfl,
          fun st k ftl size mn mx v oi hz oc => rfl,
          fun st k ftl size xs mnx mxx ys mny mxy pt => rfl,
          fun st st2 k p h => ?_, fun st st2 k s h => ?_,
          fun st st2 k c h => ?_, fun st st2 k l h => ?_,
          fun st st2 k v h => ?_, fun st st2 k v h => ?_, fun st st2 k v h => ?_,
          fun st st2 k xs mnx mxx ys mny mxy h => ?_,
          fun st k w h => ?_,
          fun st => rfl⟩
  · unfold GUIStateMachine.setObjectPosition at h
    cases h2 : alookup st.objects k with
    | none => rw [h2] at h; cases h
    | some o => rw [h2] at h; cases h; rfl
  · unfold GUIStateMachine.setObjectRotation at h
    cases h2 : alookup st.objects k with
    | none => rw [h2] at h; cases h
    | some o => rw [h2] at h; cases h; rfl
  · unfold GUIStateMachine.setObjectColor at h
    cases h2 : alookup st.objects k with
    | none => rw [h2] at h; cases h
    | some o => rw [h2] at h; cases h; rfl
  · simp [GUIStateMachine.deleteObject, h]
  · unfold GUIStateMachine.setUIElementPosition at h
    cases h2 : alookup st.widgets k with
    | none => rw [h2] at h; cases h
    | some w => rw [h2] at h; cases h; rfl
  · unfold GUIStateMachine.setUIElementSize at h
    cases h2 : alookup st.widgets k with
    | none => rw [h2] at h; cases h
    | some w => rw [h2] at h; cases h; rfl
  · unfold GUIStateMachine.setTextContents at h
    cases h2 : alookup st.widgets k with
    | none => rw [h2] at h; cases h
    | some w => rw [h2] at h; cases h; rfl
  · unfold GUIStateMachine.setButtonLabel at h
    cases h2 : alookup st.widgets k with
    | none => rw [h2] at h; cases h
    | some w => rw [h2] at h; cases h; rfl
  · unfold GUIStateMachine.setSliderValue at h
    cases h2 : alookup st.widgets k with
    | none => rw [h2] at h; cases h
    | some w => rw [h2] at h; cases h; rfl
  · unfold GUIStateMachine.setSliderMin at h
    cases h2 : alookup st.widgets k with
    | none => rw [h2] at h; cases h
    | some w => rw [h2] at h; cases h; rfl
  · unfold GUIStateMachine.setSliderMax at h
    cases h2 : alookup st.widgets k with
    | none => rw [h2] at h; cases h
    | some w => rw [h2] at h; cases h; rfl
  · unfold GUIStateMachine.setPlotData at h
    cases h2 : alookup st.widgets k with
    | none => rw [h2] at h; cases h
    | some w => rw [h2] at h; cases h; rfl
  · simp [GUIStateMachine.deleteUIElement, h]

/-- Witness for C5: a concrete successful setObjectPosition appends exactly
its position-scoped update event. -/
theorem mutation_emits_one_scoped_diff_witness :
    (GUIStateMachine.mk
        [("b1", { defaultObject with pos := ⟨1, 2, 3⟩ })] []
        [DiffEvent.mut DiffOp.update TargetKind.object "b1" { Fields.empty with pos := some ⟨1, 2, 3⟩ }]).events =
      ([] : List DiffEvent) ++
        [DiffEvent.mut DiffOp.update TargetKind.object "b1" { Fields.empty with pos := some ⟨1, 2, 3⟩ }] :=
  mutation_emits_one_scoped_diff.2.2.2.2.1
    (GUIStateMachine.mk [("b1", defaultObject)] [] []) _ "b1" ⟨1, 2, 3⟩
    (by simp [GUIStateMachine.setObjectPosition, alookup, upsert])

theorem replay_append (c : Consumer) (es1 es2 : List DiffEvent) :
    Consumer.replay c (es1 ++ es2) =
      Consumer.replay (Consumer.replay c es1) es2 := by
  simp [Consumer.replay, List.foldl_append]

theorem applyFields_objCreate (o : SceneObject) :
    SceneObject.applyFields defaultObject (objCreateFields o) = o := by
  cases o
  simp [SceneObject.applyFields, objCreateFields, Fields.empty, defaultObject]

theorem applyFields_widgetCreate (w : UIWidget) :
    UIWidget.applyFields defaultWidget (widgetCreateFields w) = w := by
  cases w
  simp [UIWidget.applyFields, widgetCreateFields, Fields.empty, defaultWidget]

theorem replay_singleton (c : Consumer) (e : DiffEvent) :
    Consumer.replay c [e] = Consumer.applyEvent c e := by
  simp [Consumer.replay]

theorem replay_runOp (st : GUIStateMachine) (op : MutOp) (c0 : Consumer)
    (h : Consumer.replay c0 st.events = ⟨st.objects, st.widgets⟩) :
    Consumer.replay c0 (runOp st op).events =
      ⟨(runOp st op).objects, (runOp st op).widgets⟩ := by
  cases op with
  | createBox k size pos euler color cs rs =>
      simp [runOp, GUIStateMachine.createBox, replay_append, h, replay_singleton,
        Consumer.applyEvent, applyFields_objCreate]
  | createSphere k radius pos color cs rs =>
      simp [runOp, GUIStateMachine.createSphere, replay_append, h, replay_singleton,
        Consumer.applyEvent, applyFields_objCreate]
  | createLine k points color =>
      simp [runOp, GUIStateMachine.createLine, replay_append, h, replay_singleton,
        Consumer.applyEvent, applyFields_objCreate]
  | createMeshFromShape k mesh pos euler scale color cs rs =>
      simp [runOp, GUIStateMachine.createMeshFromShape, replay_append, h,
        replay_singleton, Consumer.applyEvent, applyFields_objCreate]
  | setObjectPosition k p =>
      cases h2 : alookup st.objects k with
      | none => simpa [runOp, GUIStateMachine.setObjectPosition, h2] using h
      | some o =>
          simp [runOp, GUIStateMachine.setObjectPosition, h2, replay_append, h,
            replay_singleton, Consumer.applyEvent, SceneObject.applyFields,
            Fields.empty]
  | setObjectRotation k e =>
      cases h2 : alookup st.objects k with
      | none => simpa [runOp, GUIStateMachine.setObjectRotation, h2] using h
      | some o =>
          simp [runOp, GUIStateMachine.setObjectRotation, h2, replay_append, h,
            replay_singleton, Consumer.applyEvent, SceneObject.applyFields,
            Fields.empty]
  | setObjectColor k c =>
      cases h2 : alookup st.objects k with
      | none => simpa [runOp, GUIStateMachine.setObjectColor, h2] using h
      | some o =>
          simp [runOp, GUIStateMachine.setObjectColor, h2, replay_append, h,
            replay_singleton, Consumer.applyEvent, SceneObject.applyFields,
            Fields.empty]
  | deleteObject k =>
      cases h2 : alookup st.objects k with
      | none => simpa [runOp, GUIStateMachine.deleteObject, h2] using h
      | some o =>
          simp [runOp, GUIStateMachine.deleteObject, h2, replay_append, h,
            replay_singleton, Consumer.applyEvent]
  | createText k contents ftl size =>
      simp [runOp, GUIStateMachine.createText, replay_append, h, replay_singleton,
        Consumer.applyEvent, applyFields_widgetCreate]
  | createButton k label ftl size onClick =>
      simp [runOp, GUIStateMachine.createButton, replay_append, h, replay_singleton,
        Consumer.applyEvent, applyFields_widgetCreate]
  | createSlider k ftl size mn mx v oi hz oc =>
      simp [runOp, GUIStateMachine.createSlider, replay_append, h, replay_singleton,
        Consumer.applyEvent, applyFields_widgetCreate]
  | createPlot k ftl size xs mnx mxx ys mny mxy pt =>
      simp [runOp, GUIStateMachine.createPlot, replay_append, h, replay_singleton,
        Consumer.applyEvent, applyFields_widgetCreate]
  | setUIElementPosition k p =>
      cases h2 : alookup st.widgets k with
      | none => simpa [runOp, GUIStateMachine.setUIElementPosition, h2] using h
      | some w =>
          simp [runOp, GUIStateMachine.setUIElementPosition, h2, replay_append, h,
            replay_singleton, Consumer.applyEvent, UIWidget.applyFields,
            Fields.empty]
  | setUIElementSize k s =>
      cases h2 : alookup st.widgets k with
      | none => simpa [runOp, GUIStateMachine.setUIElementSize, h2] using h
      | some w =>
          simp [runOp, GUIStateMachine.setUIElementSize, h2, replay_append, h,
            replay_singleton, Consumer.applyEvent, UIWidget.applyFields,
            Fields.empty]
  | setTextContents k c =>
      cases h2 : alookup st.widgets k with
      | none => simpa [runOp, GUIStateMachine.setTextContents, h2] using h
      | some w =>
          simp [runOp, GUIStateMachine.setTextContents, h2, replay_append, h,
            replay_singleton, Consumer.applyEvent, UIWidget.applyFields,
            Fields.empty]
  | setButtonLabel k l =>
      cases h2 : alookup st.widgets k with
      | none => simpa [runOp, GUIStateMachine.setButtonLabel, h2] using h
      | some w =>
          simp [runOp, GUIStateMachine.setButtonLabel, h2, replay_append, h,
            replay_singleton, Consumer.applyEvent, UIWidget.applyFields,
            Fields.empty]
  | setSliderValue k v =>
      cases h2 : alookup st.widgets k with
      | none => simpa [runOp, GUIStateMachine.setSliderValue, h2] using h
      | some w =>
          simp [runOp, GUIStateMachine.setSliderValue, h2, replay_append, h,
            replay_singleton, Consumer.applyEvent, UIWidget.applyFields,
            Fields.empty]
  | setSliderMin k v =>
      cases h2 : alookup st.widgets k with
      | none => simpa [runOp, GUIStateMachine.setSliderMin, h2] using h
      | some w =>
          simp [runOp, GUIStateMachine.setSliderMin, h2, replay_append, h,
            replay_singleton, Consumer.applyEvent, UIWidget.applyFields,
            Fields.empty]
  | setSliderMax k v =>
      cases h2 : alookup st.widgets k with
      | none => simpa [runOp, GUIStateMachine.setSliderMax, h2] using h
      | some w =>
          simp [runOp, GUIStateMachine.setSliderMax, h2, replay_append, h,
            replay_singleton, Consumer.applyEvent, UIWidget.applyFields,
            Fields.empty]
  | setPlotData k xs mnx mxx ys mny mxy =>
      cases h2 : alookup st.widgets k with
      | none => simpa [runOp, GUIStateMachine.setPlotData, h2] using h
      | some w =>
          simp [runOp, GUIStateMachine.setPlotData, h2, replay_append, h,
            replay_singleton, Consumer.applyEvent, UIWidget.applyFields,
            Fields.empty]
  | deleteUIElement k =>
      cases h2 : alookup st.widgets k with
      | none => simpa [runOp, GUIStateMachine.deleteUIElement, h2] using h
      | some w =>
          simp [runOp, GUIStateMachine.deleteUIElement, h2, replay_append, h,
            replay_singleton, Consumer.applyEvent]
  | clear =>
      simp [runOp, GUIStateMachine.clear, replay_append, h, replay_singleton,
        Consumer.applyEvent]

theorem replay_runOps (ops : List MutOp) (st : GUIStateMachine) (c0 : Consumer)
    (h : Consumer.replay c0 st.events = ⟨st.objects, st.widgets⟩) :
    Consumer.replay c0 (runOps st ops).events =
      ⟨(runOps st ops).objects, (runOps st ops).widgets⟩ := by
  induction ops generalizing st with
  | nil => simpa [runOps] using h
  | cons op ops ih =>
      have step := replay_runOp st op c0 h
      simpa [runOps] using ih (runOp st op) step

/-- C2: diff-replay equivalence — for every finite sequence of mutating
calls run from the empty registry, replaying the emitted diff stream, in
order, onto an empty snapshot-consumer model reproduces the registry's
object and widget maps exactly, so every per-key getter agrees between the
consumer's mirror and the registry. -/
theorem diff_replay_equivalence (ops : List MutOp) :
    Consumer.replay Consumer.empty (runOps GUIStateMachine.empty ops).events =
      ⟨(runOps GUIStateMachine.empty ops).objects,
       (runOps GUIStateMachine.empty ops).widgets⟩
    ∧ ∀ k : String,
      (Consumer.replay Consumer.empty
          (runOps GUIStateMachine.empty ops).events).getObjectPosition k =
        (runOps GUIStateMachine.empty ops).getObjectPosition k
      ∧ (Consumer.replay Consumer.empty
          (runOps GUIStateMachine.empty ops).events).getObjectRotation k =
        (runOps GUIStateMachine.empty ops).getObjectRotation k
      ∧ (Consumer.replay Consumer.empty
          (runOps GUIStateMachine.empty ops).events).getObjectColor k =
        (runOps GUIStateMachine.empty ops).getObjectColor k := by
  have h0 : Consumer.replay Consumer.empty GUIStateMachine.empty.events =
      ⟨GUIStateMachine.empty.objects, GUIStateMachine.empty.widgets⟩ := rfl
  have hmain := replay_runOps ops GUIStateMachine.empty Consumer.empty h0
  refine ⟨hmain, fun k => ?_⟩
  rw [hmain]
  exact ⟨rfl, rfl, rfl⟩

/-- C7: a failed mesh import recovers with an empty/absent state: loadMesh
returns the null wrapper (after logging a warning) when the importer fails,
and setting a null mesh clears the stored URI, path and retriever; no
exception is raised and the remaining shape state is untouched. -/
theorem loadMesh_failure_recovery :
    (∀ (importScene : String → Option AiScene)
       (applyPostProcessing : AiScene → Option AiScene) (uri : String),
       importScene uri = none →
       loadMesh importScene applyPostProcessing uri = none)
    ∧ (∀ (s : MeshShape) (uri : String) (r : Option ResourceRetriever),
       (s.setMesh none uri r).mMeshUri = ""
       ∧ (s.setMesh none uri r).mMeshPath = ""
       ∧ (s.setMesh none uri r).mResourceRetriever = none
       ∧ (s.setMesh none uri r).mScale = s.mScale
       ∧ (s.setMesh none uri r).mBoundingBox = s.mBoundingBox) := by
  refine ⟨fun imp post uri h => ?_, fun s uri r => ?_⟩
  · simp [loadMesh, h]
  · simp [MeshShape.setMesh]

/-- Witness for C7: a concrete importer that fails on every URI makes
loadMesh return the null wrapper. -/
theorem loadMesh_failure_recovery_witness :
    loadMesh (fun _ => none) (fun sc => some sc) "file://missing.obj" = none :=
  loadMesh_failure_recovery.1 (fun _ => none) (fun sc => some sc)
    "file://missing.obj" rfl

/-- C9: clone returns a shape holding the very same shared mesh wrapper (no
copy of the mesh data), with the same observable scale, mesh URI and mesh
path; the original is untouched (clone is a pure function of it).  The
hypothesis is the constructor-established invariant that a shape without a
mesh has an empty URI. -/
theorem clone_shares_mesh_preserves_observables (s : MeshShape)
    (h : s.mMesh = none → s.mMeshUri = "") :
    (s.clone).mMesh = s.mMesh
    ∧ (s.clone).getScale = s.getScale
    ∧ (s.clone).getMeshUri = s.getMeshUri
    ∧ (s.clone).getMeshPath = s.getMeshPath := by
  cases hm : s.mMesh with
  | none =>
      simp [MeshShape.clone, MeshShape.construct, MeshShape.setMesh,
        MeshShape.setScale, MeshShape.getScale, MeshShape.getMeshUri,
        MeshShape.getMeshPath, hm, h hm]
  | some w =>
      simp [MeshShape.clone, MeshShape.construct, MeshShape.setMesh,
        MeshShape.setScale, MeshShape.getScale, MeshShape.getMeshUri,
        MeshShape.getMeshPath, hm]

/-- Witness for C9 at a concrete constructed shape holding a mesh. -/
theorem clone_shares_mesh_preserves_observables_witness :
    ((MeshShape.construct ⟨EFloat.fin 2, EFloat.fin 2, EFloat.fin 2⟩
        (some ⟨some ⟨[], true⟩⟩) "file://m.dae" none false).clone).mMesh =
      (MeshShape.construct ⟨EFloat.fin 2, EFloat.fin 2, EFloat.fin 2⟩
        (some ⟨some ⟨[], true⟩⟩) "file://m.dae" none false).mMesh
    ∧ ((MeshShape.construct ⟨EFloat.fin 2, EFloat.fin 2, EFloat.fin 2⟩
        (some ⟨some ⟨[], true⟩⟩) "file://m.dae" none false).clone).getScale =
      (MeshShape.construct ⟨EFloat.fin 2, EFloat.fin 2, EFloat.fin 2⟩
        (some ⟨some ⟨[], true⟩⟩) "file://m.dae" none false).getScale
    ∧ ((MeshShape.construct ⟨EFloat.fin 2, EFloat.fin 2, EFloat.fin 2⟩
        (some ⟨some ⟨[], true⟩⟩) "file://m.dae" none false).clone).getMeshUri =
      (MeshShape.construct ⟨EFloat.fin 2, EFloat.fin 2, EFloat.fin 2⟩
        (some ⟨some ⟨[], true⟩⟩) "file://m.dae" none false).getMeshUri
    ∧ ((MeshShape.construct ⟨EFloat.fin 2, EFloat.fin 2, EFloat.fin 2⟩
        (some ⟨some ⟨[], true⟩⟩) "file://m.dae" none false).clone).getMeshPath =
      (MeshShape.construct ⟨EFloat.fin 2, EFloat.fin 2, EFloat.fin 2⟩
        (some ⟨some ⟨[], true⟩⟩) "file://m.dae" none false).getMeshPath :=
  clone_shares_mesh_preserves_observables
    (MeshShape.construct ⟨EFloat.fin 2, EFloat.fin 2, EFloat.fin 2⟩
      (some ⟨some ⟨[], true⟩⟩) "file://m.dae" none false)
    (by simp [MeshShape.construct, MeshShape.setMesh, MeshShape.setScale])

/-- C10: setScale's assertion requires a component-wise strictly positive
scale; under that precondition the asserted condition evaluates to true, and
afterwards getScale returns exactly the given vector while the bounding box
and the volume are marked dirty. -/
theorem setScale_positive_assert (s : MeshShape) (scale : V3 EFloat)
    (h : EFloat.blt (EFloat.fin 0) scale.x = true
         ∧ EFloat.blt (EFloat.fin 0) scale.y = true
         ∧ EFloat.blt (EFloat.fin 0) scale.z = true) :
    scaleAllPositive scale = true
    ∧ (s.setScale scale).getScale = scale
    ∧ (s.setScale scale).mIsBoundingBoxDirty = true
    ∧ (s.setScale scale).mIsVolumeDirty = true :=
  ⟨by simp [scaleAllPositive, h.1, h.2.1, h.2.2], rfl, rfl, rfl⟩

/-- Witness for C10 at a concrete shape and scale. -/
theorem setScale_positive_assert_witness :
    scaleAllPositive ⟨EFloat.fin 2, EFloat.fin 3, EFloat.fin 4⟩ = true
    ∧ ((MeshShape.construct ⟨EFloat.fin 1, EFloat.fin 1, EFloat.fin 1⟩ none ""
        none false).setScale
        ⟨EFloat.fin 2, EFloat.fin 3, EFloat.fin 4⟩).getScale =
      ⟨EFloat.fin 2, EFloat.fin 3, EFloat.fin 4⟩
    ∧ ((MeshShape.construct ⟨EFloat.fin 1, EFloat.fin 1, EFloat.fin 1⟩ none ""
        none false).setScale
        ⟨EFloat.fin 2, EFloat.fin 3, EFloat.fin 4⟩).mIsBoundingBoxDirty = true
    ∧ ((MeshShape.construct ⟨EFloat.fin 1, EFloat.fin 1, EFloat.fin 1⟩ none ""
        none false).setScale
        ⟨EFloat.fin 2, EFloat.fin 3, EFloat.fin 4⟩).mIsVolumeDirty = true :=
  setScale_positive_assert
    (MeshShape.construct ⟨EFloat.fin 1, EFloat.fin 1, EFloat.fin 1⟩ none ""
      none false)
    ⟨EFloat.fin 2, EFloat.fin 3, EFloat.fin 4⟩
    ⟨by norm_num [EFloat.blt], by norm_num [EFloat.blt], by norm_num [EFloat.blt]⟩

theorem EFloat.ble_refl (a : EFloat) : EFloat.ble a a = true := by
  cases a <;> simp [EFloat.ble, EFloat.blt]

theorem EFloat.ble_posInf (a : EFloat) : EFloat.ble a EFloat.posInf = true := by
  cases a <;> rfl

theorem EFloat.negInf_ble (a : EFloat) : EFloat.ble EFloat.negInf a = true := by
  cases a <;> rfl

theorem EFloat.eq_posInf_of_ble (a : EFloat)
    (h : EFloat.ble EFloat.posInf a = true) : a = EFloat.posInf := by
  cases a <;> simp_all [EFloat.ble, EFloat.blt]

theorem EFloat.eq_negInf_of_ble (a : EFloat)
    (h : EFloat.ble a EFloat.negInf = true) : a = EFloat.negInf := by
  cases a <;> simp_all [EFloat.ble, EFloat.blt]

theorem EFloat.blt_asymm (a b : EFloat) (h : EFloat.blt a b = true) :
    EFloat.blt b a = false := by
  cases a <;> cases b <;> simp_all [EFloat.blt]
  exact le_of_lt h

theorem EFloat.ble_trans (a b c : EFloat) (h1 : EFloat.ble a b = true)
    (h2 : EFloat.ble b c = true) : EFloat.ble a c = true := by
  cases a <;> cases b <;> cases c <;> simp_all [EFloat.ble, EFloat.blt]
  exact le_trans h1 h2

theorem EFloat.ble_of_blt (a b : EFloat) (h : EFloat.blt a b = true) :
    EFloat.ble a b = true := by
  simp [EFloat.ble, EFloat.blt_asymm a b h]

theorem EFloat.min_choice (a b : EFloat) :
    EFloat.min a b = a ∨ EFloat.min a b = b := by
  unfold EFloat.min
  by_cases h : EFloat.blt a b = true <;> simp [h]

theorem EFloat.ble_min_left (a b : EFloat) :
    EFloat.ble (EFloat.min a b) a = true := by
  unfold EFloat.min
  by_cases h : EFloat.blt a b = true <;> simp [h]
  · exact EFloat.ble_refl a
  · simpa [EFloat.ble] using h

theorem EFloat.ble_min_right (a b : EFloat) :
    EFloat.ble (EFloat.min a b) b = true := by
  unfold EFloat.min
  by_cases h : EFloat.blt a b = true <;> simp [h]
  · exact EFloat.ble_of_blt a b h
  · exact EFloat.ble_refl b

theorem EFloat.max_choice (a b : EFloat) :
    EFloat.max a b = a ∨ EFloat.max a b = b := by
  unfold EFloat.max
  by_cases h : EFloat.blt a b = true <;> simp [h]

theorem EFloat.ble_max_left (a b : EFloat) :
    EFloat.ble a (EFloat.max a b) = true := by
  unfold EFloat.max
  by_cases h : EFloat.blt a b = true <;> simp [h]
  · exact EFloat.ble_of_blt a b h
  · exact EFloat.ble_refl a

theorem EFloat.ble_max_right (a b : EFloat) :
    EFloat.ble b (EFloat.max a b) = true := by
  unfold EFloat.max
  by_cases h : EFloat.blt a b = true <;> simp [h]
  · exact EFloat.ble_refl b
  · simpa [EFloat.ble] using h

theorem foldl_min_spec (xs : List EFloat) (a : EFloat) :
    (List.foldl (fun m x => EFloat.min x m) a xs = a
      ∨ List.foldl (fun m x => EFloat.min x m) a xs ∈ xs)
    ∧ EFloat.ble (List.foldl (fun m x => EFloat.min x m) a xs) a = true
    ∧ ∀ u ∈ xs,
        EFloat.ble (List.foldl (fun m x => EFloat.min x m) a xs) u = true := by
  induction xs generalizing a with
  | nil => simp [EFloat.ble_refl]
  | cons x tl ih =>
      obtain ⟨hmem, hle, hall⟩ := ih (EFloat.min x a)
      refine ⟨?_, ?_, ?_⟩
      · rcases hmem with hm | hm
        · rcases EFloat.min_choice x a with hc | hc
          · rw [List.foldl_cons, hm, hc]
            exact Or.inr (List.mem_cons_self x tl)
          · rw [List.foldl_cons, hm, hc]
            exact Or.inl rfl
        · rw [List.foldl_cons]
          exact Or.inr (List.mem_cons_of_mem x hm)
      · rw [List.foldl_cons]
        exact EFloat.ble_trans _ _ _ hle (EFloat.ble_min_right x a)
      · intro u hu
        rw [List.foldl_cons]
        rcases List.mem_cons.mp hu with hu | hu
        · subst hu
          exact EFloat.ble_trans _ _ _ hle (EFloat.ble_min_left u a)
        · exact hall u hu

theorem foldl_max_spec (xs : List EFloat) (a : EFloat) :
    (List.foldl EFloat.max a xs = a ∨ List.foldl EFloat.max a xs ∈ xs)
    ∧ EFloat.ble a (List.foldl EFloat.max a xs) = true
    ∧ ∀ u ∈ xs, EFloat.ble u (List.foldl EFloat.max a xs) = true := by
  induction xs generalizing a with
  | nil => simp [EFloat.ble_refl]
  | cons x tl ih =>
      obtain ⟨hmem, hle, hall⟩ := ih (EFloat.max a x)
      refine ⟨?_, ?_, ?_⟩
      · rcases hmem with hm | hm
        · rcases EFloat.max_choice a x with hc | hc
          · rw [List.foldl_cons, hm, hc]
            exact Or.inl rfl
          · rw [List.foldl_cons, hm, hc]
            exact Or.inr (List.mem_cons_self x tl)
        · rw [List.foldl_cons]
          exact Or.inr (List.mem_cons_of_mem x hm)
      · rw [List.foldl_cons]
        exact EFloat.ble_trans _ _ _ (EFloat.ble_max_left a x) hle
      · intro u hu
        rw [List.foldl_cons]
        rcases List.mem_cons.mp hu with hu | hu
        · subst hu
          exact EFloat.ble_trans _ _ _ (EFloat.ble_max_right a u) hle
        · exact hall u hu

theorem min_fold_mem (xs : List EFloat) (hne : xs ≠ []) :
    List.foldl (fun m x => EFloat.min x m) EFloat.posInf xs ∈ xs
    ∧ ∀ u ∈ xs,
        EFloat.ble (List.foldl (fun m x => EFloat.min x m) EFloat.posInf xs) u
          = true := by
  obtain ⟨hmem, hle, hall⟩ := foldl_min_spec xs EFloat.posInf
  refine ⟨?_, hall⟩
  rcases hmem with hm | hm
  · cases xs with
    | nil => exact absurd rfl hne
    | cons x tl =>
        have hx := hall x (List.mem_cons_self x tl)
        rw [hm] at hx
        have hxp := EFloat.eq_posInf_of_ble x hx
        rw [hm, ← hxp]
        exact List.mem_cons_self x tl
  · exact hm

theorem max_fold_mem (xs : List EFloat) (hne : xs ≠ []) :
    List.foldl EFloat.max EFloat.negInf xs ∈ xs
    ∧ ∀ u ∈ xs,
        EFloat.ble u (List.foldl EFloat.max EFloat.negInf xs) = true := by
  obtain ⟨hmem, hle, hall⟩ := foldl_max_spec xs EFloat.negInf
  refine ⟨?_, hall⟩
  rcases hmem with hm | hm
  · cases xs with
    | nil => exact absurd rfl hne
    | cons x tl =>
        have hx := hall x (List.mem_cons_self x tl)
        rw [hm] at hx
        have hxp := EFloat.eq_negInf_of_ble x hx
        rw [hm, ← hxp]
        exact List.mem_cons_self x tl
  · exact hm

theorem stepVert_proj (acc : BBAcc) (v : V3 EFloat) :
    (stepVert acc v).minX = EFloat.min v.x acc.minX
    ∧ (stepVert acc v).minY = EFloat.min v.y acc.minY
    ∧ (stepVert acc v).minZ = EFloat.min v.z acc.minZ
    ∧ (stepVert acc v).maxX = EFloat.max acc.maxX v.x
    ∧ (stepVert acc v).maxY = EFloat.max acc.maxY v.y
    ∧ (stepVert acc v).maxZ = EFloat.max acc.maxZ v.z := by
  by_cases h1 : EFloat.blt acc.maxX v.x = true <;>
  by_cases h2 : EFloat.blt v.x acc.minX = true <;>
  by_cases h3 : EFloat.blt acc.maxY v.y = true <;>
  by_cases h4 : EFloat.blt v.y acc.minY = true <;>
  by_cases h5 : EFloat.blt acc.maxZ v.z = true <;>
  by_cases h6 : EFloat.blt v.z acc.minZ = true <;>
  simp [stepVert, EFloat.min, EFloat.max, h1, h2, h3, h4, h5, h6]

theorem foldVertices_minX (vs : List (V3 EFloat)) (acc : BBAcc) :
    (foldVertices acc vs).minX =
      List.foldl (fun m x => EFloat.min x m) acc.minX
        (vs.map (fun v => v.x)) := by
  induction vs generalizing acc with
  | nil => rfl
  | cons v tl ih =>
      simp only [foldVertices, List.foldl_cons, List.map_cons]
      rw [show List.foldl stepVert (stepVert acc v) tl
            = foldVertices (stepVert acc v) tl from rfl, ih,
          (stepVert_proj acc v).1]

theorem foldVertices_minY (vs : List (V3 EFloat)) (acc : BBAcc) :
    (foldVertices acc vs).minY =
      List.foldl (fun m x => EFloat.min x m) acc.minY
        (vs.map (fun v => v.y)) := by
  induction vs generalizing acc with
  | nil => rfl
  | cons v tl ih =>
      simp only [foldVertices, List.foldl_cons, List.map_cons]
      rw [show List.foldl stepVert (stepVert acc v) tl
            = foldVertices (stepVert acc v) tl from rfl, ih,
          (stepVert_proj acc v).2.1]

theorem foldVertices_minZ (vs : List (V3 EFloat)) (acc : BBAcc) :
    (foldVertices acc vs).minZ =
      List.foldl (fun m x => EFloat.min x m) acc.minZ
        (vs.map (fun v => v.z)) := by
  induction vs generalizing acc with
  | nil => rfl
  | cons v tl ih =>
      simp only [foldVertices, List.foldl_cons, List.map_cons]
      rw [show List.foldl stepVert (stepVert acc v) tl
            = foldVertices (stepVert acc v) tl from rfl, ih,
          (stepVert_proj acc v).2.2.1]

theorem foldVertices_maxX (vs : List (V3 EFloat)) (acc : BBAcc) :
    (foldVertices acc vs).maxX =
      List.foldl EFloat.max acc.maxX (vs.map (fun v => v.x)) := by
  induction vs generalizing acc with
  | nil => rfl
  | cons v tl ih =>
      simp only [foldVertices, List.foldl_cons, List.map_cons]
      rw [show List.foldl stepVert (stepVert acc v) tl
            = foldVertices (stepVert acc v) tl from rfl, ih,
          (stepVert_proj acc v).2.2.2.1]

theorem foldVertices_maxY (vs : List (V3 EFloat)) (acc : BBAcc) :
    (foldVertices acc vs).maxY =
      List.foldl EFloat.max acc.maxY (vs.map (fun v => v.y)) := by
  induction vs generalizing acc with
  | nil => rfl
  | cons v tl ih =>
      simp only [foldVertices, List.foldl_cons, List.map_cons]
      rw [show List.foldl stepVert (stepVert acc v) tl
            = foldVertices (stepVert acc v) tl from rfl, ih,
          (stepVert_proj acc v).2.2.2.2.1]

theorem foldVertices_maxZ (vs : List (V3 EFloat)) (acc : BBAcc) :
    (foldVertices acc vs).maxZ =
      List.foldl EFloat.max acc.maxZ (vs.map (fun v => v.z)) := by
  induction vs generalizing acc with
  | nil => rfl
  | cons v tl ih =>
      simp only [foldVertices, List.foldl_cons, List.map_cons]
      rw [show List.foldl stepVert (stepVert acc v) tl
            = foldVertices (stepVert acc v) tl from rfl, ih,
          (stepVert_proj acc v).2.2.2.2.2]

theorem foldMeshes_eq (ms : List AiMesh) (acc : BBAcc) :
    foldMeshes acc ms = foldVertices acc (ms.map AiMesh.mVertices).flatten := by
  induction ms generalizing acc with
  | nil => rfl
  | cons m tl ih =>
      simp only [foldMeshes, List.foldl_cons, List.map_cons, List.flatten_cons]
      rw [show List.foldl (fun a m2 => foldVertices a m2.mVertices)
            (foldVertices acc m.mVertices) tl
            = foldMeshes (foldVertices acc m.mVertices) tl from rfl, ih]
      simp [foldVertices, List.foldl_append]

/-- C8: after updateBoundingBox, a shape without a mesh gets the zero
bounding box; otherwise each component of the stored minimum (resp. maximum)
is the least (resp. greatest) value of that coordinate over all vertices of
all sub-meshes, multiplied by the matching scale component; in both cases
the dirty flag is cleared. -/
theorem updateBoundingBox_extents (s : MeshShape) :
    (s.mMesh = none →
       (s.updateBoundingBox).mBoundingBox =
         ⟨⟨EFloat.fin 0, EFloat.fin 0, EFloat.fin 0⟩,
          ⟨EFloat.fin 0, EFloat.fin 0, EFloat.fin 0⟩⟩
       ∧ (s.updateBoundingBox).mIsBoundingBoxDirty = false)
    ∧ ∀ (w : SharedMeshWrapper) (scene : AiScene),
        s.mMesh = some w → w.mesh = some scene →
        (scene.mMeshes.map AiMesh.mVertices).flatten ≠ [] →
        (∃ m ∈ (scene.mMeshes.map AiMesh.mVertices).flatten.map (fun v => v.x),
           (∀ u ∈ (scene.mMeshes.map AiMesh.mVertices).flatten.map (fun v => v.x),
              EFloat.ble m u = true)
           ∧ (s.updateBoundingBox).mBoundingBox.min.x = EFloat.mul m s.mScale.x)
        ∧ (∃ m ∈ (scene.mMeshes.map AiMesh.mVertices).flatten.map (fun v => v.y),
           (∀ u ∈ (scene.mMeshes.map AiMesh.mVertices).flatten.map (fun v => v.y),
              EFloat.ble m u = true)
           ∧ (s.updateBoundingBox).mBoundingBox.min.y = EFloat.mul m s.mScale.y)
        ∧ (∃ m ∈ (scene.mMeshes.map AiMesh.mVertices).flatten.map (fun v => v.z),
           (∀ u ∈ (scene.mMeshes.map AiMesh.mVertices).flatten.map (fun v => v.z),
              EFloat.ble m u = true)
           ∧ (s.updateBoundingBox).mBoundingBox.min.z = EFloat.mul m s.mScale.z)
        ∧ (∃ m ∈ (scene.mMeshes.map AiMesh.mVertices).flatten.map (fun v => v.x),
           (∀ u ∈ (scene.mMeshes.map AiMesh.mVertices).flatten.map (fun v => v.x),
              EFloat.ble u m = true)
           ∧ (s.updateBoundingBox).mBoundingBox.max.x = EFloat.mul m s.mScale.x)
        ∧ (∃ m ∈ (scene.mMeshes.map AiMesh.mVertices).flatten.map (fun v => v.y),
           (∀ u ∈ (scene.mMeshes.map AiMesh.mVertices).flatten.map (fun v => v.y),
              EFloat.ble u m = true)
           ∧ (s.updateBoundingBox).mBoundingBox.max.y = EFloat.mul m s.mScale.y)
        ∧ (∃ m ∈ (scene.mMeshes.map AiMesh.mVertices).flatten.map (fun v => v.z),
           (∀ u ∈ (scene.mMeshes.map AiMesh.mVertices).flatten.map (fun v => v.z),
              EFloat.ble u m = true)
           ∧ (s.updateBoundingBox).mBoundingBox.max.z = EFloat.mul m s.mScale.z)
        ∧ (s.updateBoundingBox).mIsBoundingBoxDirty = false := by
  constructor
  · intro hm
    constructor <;> simp [MeshShape.updateBoundingBox, hm]
  · intro w scene hm hscene hne
    have hflat : sceneMeshes w = scene.mMeshes := by simp [sceneMeshes, hscene]
    have hnex :
        (scene.mMeshes.map AiMesh.mVertices).flatten.map (fun v => v.x) ≠ [] :=
      fun hcon => hne (List.map_eq_nil_iff.mp hcon)
    have hney :
        (scene.mMeshes.map AiMesh.mVertices).flatten.map (fun v => v.y) ≠ [] :=
      fun hcon => hne (List.map_eq_nil_iff.mp hcon)
    have hnez :
        (scene.mMeshes.map AiMesh.mVertices).flatten.map (fun v => v.z) ≠ [] :=
      fun hcon => hne (List.map_eq_nil_iff.mp hcon)
    have hminX : (s.updateBoundingBox).mBoundingBox.min.x =
        EFloat.mul (List.foldl (fun m x => EFloat.min x m) EFloat.posInf
          ((scene.mMeshes.map AiMesh.mVertices).flatten.map (fun v => v.x)))
          s.mScale.x := by
      simp [MeshShape.updateBoundingBox, hm, foldMeshes_eq, hflat,
        foldVertices_minX]
    have hminY : (s.updateBoundingBox).mBoundingBox.min.y =
        EFloat.mul (List.foldl (fun m x => EFloat.min x m) EFloat.posInf
          ((scene.mMeshes.map AiMesh.mVertices).flatten.map (fun v => v.y)))
          s.mScale.y := by
      simp [MeshShape.updateBoundingBox, hm, foldMeshes_eq, hflat,
        foldVertices_minY]
    have hminZ : (s.updateBoundingBox).mBoundingBox.min.z =
        EFloat.mul (List.foldl (fun m x => EFloat.min x m) EFloat.posInf
          ((scene.mMeshes.map AiMesh.mVertices).flatten.map (fun v => v.z)))
          s.mScale.z := by
      simp [MeshShape.updateBoundingBox, hm, foldMeshes_eq, hflat,
        foldVertices_minZ]
    have hmaxX : (s.updateBoundingBox).mBoundingBox.max.x =
        EFloat.mul (List.foldl EFloat.max EFloat.negInf
          ((scene.mMeshes.map AiMesh.mVertices).flatten.map (fun v => v.x)))
          s.mScale.x := by
      simp [MeshShape.updateBoundingBox, hm, foldMeshes_eq, hflat,
        foldVertices_maxX]
    have hmaxY : (s.updateBoundingBox).mBoundingBox.max.y =
        EFloat.mul (List.foldl EFloat.max EFloat.negInf
          ((scene.mMeshes.map AiMesh.mVertices).flatten.map (fun v => v.y)))
          s.mScale.y := by
      simp [MeshShape.updateBoundingBox, hm, foldMeshes_eq, hflat,
        foldVertices_maxY]
    have hmaxZ : (s.updateBoundingBox).mBoundingBox.max.z =
        EFloat.mul (List.foldl EFloat.max EFloat.negInf
          ((scene.mMeshes.map AiMesh.mVertices).flatten.map (fun v => v.z)))
          s.mScale.z := by
      simp [MeshShape.updateBoundingBox, hm, foldMeshes_eq, hflat,
        foldVertices_maxZ]
    obtain ⟨hmx, hbx⟩ := min_fold_mem _ hnex
    obtain ⟨hmy, hby⟩ := min_fold_mem _ hney
    obtain ⟨hmz, hbz⟩ := min_fold_mem _ hnez
    obtain ⟨hMx, hBx⟩ := max_fold_mem _ hnex
    obtain ⟨hMy, hBy⟩ := max_fold_mem _ hney
    obtain ⟨hMz, hBz⟩ := max_fold_mem _ hnez
    refine ⟨⟨_, hmx, hbx, hminX⟩, ⟨_, hmy, hby, hminY⟩, ⟨_, hmz, hbz, hminZ⟩,
            ⟨_, hMx, hBx, hmaxX⟩, ⟨_, hMy, hBy, hmaxY⟩, ⟨_, hMz, hBz, hmaxZ⟩, ?_⟩
    simp [MeshShape.updateBoundingBox, hm]

/-- Witness for C8 at the concrete demoShape: the stored minimum x extent is
a least x coordinate of the scene's vertices scaled by the x scale. -/
theorem updateBoundingBox_extents_witness :
    ∃ m ∈ (demoScene.mMeshes.map AiMesh.mVertices).flatten.map (fun v => v.x),
      (∀ u ∈ (demoScene.mMeshes.map AiMesh.mVertices).flatten.map
          (fun v => v.x), EFloat.ble m u = true)
      ∧ (demoShape.updateBoundingBox).mBoundingBox.min.x =
          EFloat.mul m demoShape.mScale.x :=
  ((updateBoundingBox_extents demoShape).2 ⟨some demoScene⟩ demoScene
    (by simp [demoShape, MeshShape.construct, MeshShape.setMesh,
      MeshShape.setScale])
    rfl (by simp [demoScene])).1
